import Mathlib

/-!
Verification of the multi-backend contact manager database layer.

This file gives a shallow embedding, in Lean, of the database abstraction
layer of the contact manager: the four backend adapters (SQLite, MySQL,
PostgreSQL, MongoDB), the schema manager, the database manager with its
factory, the preflight backend chooser, and the uniqueness validators.
Backend engines (SQL tables, Mongo collections) are modelled as explicit
state values; every adapter method that the claims touch is translated to
a pure function on those states, and properties of the claims are proved
as theorems about those functions.
-/

/-! ## Python-style string primitives

The adapters compare and match strings the way the underlying engines do:
SQL LIKE with a percent pattern on both sides is case-insensitive
substring containment (SQLite LIKE, MySQL ci collation, Postgres ILIKE,
Mongo regex with the i option), and Python str.strip removes surrounding
whitespace.  These are defined on the character list so that the kernel
can evaluate them. -/

/-- Lower-case every character of a string (models Python lower and the
case-insensitive collations of the engines; data are ASCII). -/
def py_lower (s : String) : String := String.mk (s.data.map Char.toLower)

/-- Python str.strip: drop surrounding whitespace. -/
def py_strip (s : String) : String :=
  String.mk (((s.data.dropWhile Char.isWhitespace).reverse.dropWhile Char.isWhitespace).reverse)

/-- Leading-match test on character lists. -/
def leadMatch : List Char → List Char → Bool
  | [], _ => true
  | _ :: _, [] => false
  | a :: p, b :: s => a == b && leadMatch p s

/-- Substring containment on character lists. -/
def subMatch : List Char → List Char → Bool
  | p, [] => p.isEmpty
  | p, c :: t => leadMatch p (c :: t) || subMatch p t

/-- SQL LIKE with percent on both sides / Mongo unanchored i-regex:
case-insensitive substring containment. -/
def likeCI (pat s : String) : Bool := subMatch (py_lower pat).data (py_lower s).data

/-! ## Scalar values and Python dictionaries

A `Val` is a scalar as stored by the backends: a string, an integer, a
backend timestamp (an abstract tick count), or SQL NULL / Python None.
A Python dictionary with scalar values is an association list with
distinct keys in insertion order. -/

/-- A scalar value as it appears in a record. -/
inductive Val where
  | str (s : String)
  | int (n : Int)
  | time (t : Nat)
  | null
deriving DecidableEq, Repr

/-- A Python dict from column names to scalars, in insertion order. -/
abbrev PyDict := List (String × Val)

/-- Python dict.get with default None: the value stored at the key, or
null when the key is absent. -/
def dictGet (d : PyDict) (k : String) : Val :=
  match d with
  | [] => Val.null
  | p :: ps => if p.1 == k then p.2 else dictGet ps k

/-- Lookup returning whether the key is present at all. -/
def dictGet? (d : PyDict) (k : String) : Option Val :=
  match d with
  | [] => none
  | p :: ps => if p.1 == k then some p.2 else dictGet? ps k

/-- Python dict.update: existing keys are overwritten in place, new keys
are appended in order. -/
def dictUpdate (base fs : PyDict) : PyDict :=
  base.map (fun kv => (kv.1, (dictGet? fs kv.1).getD kv.2)) ++
    fs.filter (fun kv => !(base.any (fun b => b.1 == kv.1)))

/-! ## Preflight backend chooser (src/preflight.py)

The health map persisted by the state tracker maps a backend identifier
to an integer flag (1 = healthy); reading an absent backend gives none,
as Python dict.get gives None. -/

/-- Persisted health map: backend identifier to 0/1 health flag. -/
abbrev HealthMap := String → Option Int

/-- src/preflight.py _choose_db: explicit DB_TYPE override if healthy,
else the last-used backend if healthy, else sqlite.  Python truthiness:
an empty (stripped) override and an empty or absent last-used record are
ignored. -/
def choose_db (envDbType : Option String) (lastUsed : Option String)
    (health : HealthMap) : String :=
  let explicit := py_strip (envDbType.getD "")
  if !explicit.isEmpty && health explicit == some 1 then explicit
  else
    match lastUsed with
    | some l => if !l.isEmpty && health l == some 1 then l else "sqlite"
    | none => "sqlite"

/-- The health map of the scenario in the claim: sqlite healthy, mysql
unhealthy, nothing else recorded. -/
def scenarioHealth : HealthMap := fun t =>
  if t = "sqlite" then some 1 else if t = "mysql" then some 0 else none

/-! ## Schema manager (src/src/contact_manager/core/schema_manager.py) -/

/-- One cell of a backend-native introspection tuple: an integer, a
string, or NULL/None. -/
inductive Cell where
  | i (n : Int)
  | s (v : String)
  | null
deriving DecidableEq, Repr

/-- Whether the cell is a Python int (the isinstance check used for
shape detection). -/
def Cell.isInt : Cell → Bool
  | .i _ => true
  | _ => false

/-- Python str() of a cell value as used when collecting column names. -/
def Cell.toStr : Cell → String
  | .i n => toString n
  | .s v => v
  | .null => "None"

namespace SchemaManager

/-- The six required columns, in order (SchemaManager.REQUIRED_COLUMNS). -/
def REQUIRED_COLUMNS : List String :=
  ["id", "name", "phone", "email", "created_at", "updated_at"]

/-- Extract the column name from one introspection tuple: when the tuple
has more than one cell and starts with an integer it is the SQLite
PRAGMA shape (name at index 1), otherwise the name is the first cell.
An empty tuple never occurs in a backend result and yields none. -/
def extractName : List Cell → Option String
  | [] => none
  | c :: rest =>
    if rest.length > 0 && c.isInt then rest.head?.map Cell.toStr
    else some c.toStr

/-- SchemaManager.get_table_columns on a given introspection result:
falls back to the required-column list when introspection reports
nothing. -/
def get_table_columns (tableInfo : List (List Cell)) : List String :=
  if tableInfo.isEmpty then REQUIRED_COLUMNS
  else
    let columns := tableInfo.filterMap extractName
    if columns.isEmpty then REQUIRED_COLUMNS else columns

/-- The two timestamp columns. -/
def timestampCols : List String := ["created_at", "updated_at"]

/-- SchemaManager.get_display_columns, as the reordering step applied to
the live column list: non-timestamp columns first in their original
order, then whichever of created_at / updated_at are present. -/
def display_columns (columns : List String) : List String :=
  columns.filter (fun c => !(timestampCols.contains c)) ++
    timestampCols.filter (fun c => columns.contains c)

/-- SchemaManager.get_contact_as_dict_raw: zip the live column order
against the positional tuple values, padding columns beyond the tuple
length with None, transforming no value. -/
def get_contact_as_dict_raw : List String → List Val → PyDict
  | [], _ => []
  | c :: cs, [] => (c, Val.null) :: get_contact_as_dict_raw cs []
  | c :: cs, v :: vs => (c, v) :: get_contact_as_dict_raw cs vs

/-- SchemaManager.build_contact_tuple: values in live column order,
absent keys giving None. -/
def build_contact_tuple (columns : List String) (d : PyDict) : List Val :=
  columns.map (dictGet d)

end SchemaManager

/-! ### Helper lemmas on dictionaries -/

theorem get_contact_as_dict_raw_map (columns : List String) (f : String → Val) :
    SchemaManager.get_contact_as_dict_raw columns (columns.map f) =
      columns.map (fun c => (c, f c)) := by
  induction columns with
  | nil => rfl
  | cons c cs ih => simp [SchemaManager.get_contact_as_dict_raw, ih]

theorem dictGet_map_pair (columns : List String) (f : String → Val) (k : String) :
    dictGet (columns.map (fun c => (c, f c))) k =
      if k ∈ columns then f k else Val.null := by
  induction columns with
  | nil => simp [dictGet]
  | cons c cs ih =>
    by_cases h : c = k
    · simp [dictGet, h]
    · have hkc : ¬ k = c := fun hh => h hh.symm
      simp [dictGet, h, ih, hkc]

theorem dictGet_of_not_mem_keys (d : PyDict) (k : String)
    (h : k ∉ d.map Prod.fst) : dictGet d k = Val.null := by
  induction d with
  | nil => rfl
  | cons p ps ih =>
    simp only [List.map_cons, List.mem_cons] at h
    push_neg at h
    have hne : ¬ p.1 = k := fun hh => h.1 hh.symm
    simp [dictGet, hne, ih h.2]

/-! ## Claim C7: preflight backend choice priority -/

/-- C7: choose_db returns the explicit DB_TYPE override when its health
entry is healthy, otherwise the last-used backend when its health entry
is healthy, otherwise sqlite; and on the health map with sqlite healthy
and mysql unhealthy, with no override and no last-used record, it
returns sqlite. -/
theorem choose_db_priority :
    (∀ (e : String) (last : Option String) (health : HealthMap),
      (py_strip e).isEmpty = false → health (py_strip e) = some 1 →
      choose_db (some e) last health = py_strip e)
    ∧ (∀ (envDbType : Option String) (last : String) (health : HealthMap),
        ((py_strip (envDbType.getD "")).isEmpty = true ∨
          health (py_strip (envDbType.getD "")) ≠ some 1) →
        last.isEmpty = false → health last = some 1 →
        choose_db envDbType (some last) health = last)
    ∧ (∀ (envDbType : Option String) (lastUsed : Option String) (health : HealthMap),
        ((py_strip (envDbType.getD "")).isEmpty = true ∨
          health (py_strip (envDbType.getD "")) ≠ some 1) →
        (∀ l, lastUsed = some l → l.isEmpty = true ∨ health l ≠ some 1) →
        choose_db envDbType lastUsed health = "sqlite")
    ∧ choose_db none none scenarioHealth = "sqlite" := by
  refine ⟨?_, ?_, ?_, ?_⟩
  · intro e last health h1 h2
    simp [choose_db, h1, h2]
  · intro envDbType last health hno h1 h2
    rcases hno with hno | hno
    · simp [choose_db, hno, h1, h2]
    · have : (health (py_strip (envDbType.getD "")) == some 1) = false := by
        simpa using hno
      simp [choose_db, this, h1, h2]
  · intro envDbType lastUsed health hno hlast
    have hcond : (!(py_strip (envDbType.getD "")).isEmpty &&
        health (py_strip (envDbType.getD "")) == some 1) = false := by
      rcases hno with hno | hno
      · simp [hno]
      · have : (health (py_strip (envDbType.getD "")) == some 1) = false := by
          simpa using hno
        simp [this]
    match lastUsed with
    | none => simp [choose_db, hcond]
    | some l =>
      rcases hlast l rfl with hl | hl
      · simp [choose_db, hcond, hl]
      · have : (health l == some 1) = false := by simpa using hl
        simp [choose_db, hcond, this]
  · decide

/-- Witness for C7 at concrete inputs: a healthy explicit override wins,
a healthy last-used backend is chosen when the override is absent, and
the scenario falls back to sqlite. -/
theorem choose_db_priority_witness :
    choose_db (some "postgres") (some "mysql")
        (fun t => if t = "postgres" then some 1 else none) = "postgres"
    ∧ choose_db none (some "mysql")
        (fun t => if t = "mysql" then some 1 else none) = "mysql"
    ∧ choose_db (some "  ") (some "") scenarioHealth = "sqlite" := by
  refine ⟨?_, ?_, ?_⟩
  · have h := choose_db_priority.1 "postgres" (some "mysql")
      (fun t => if t = "postgres" then some 1 else none) (by decide) (by decide)
    have he : py_strip "postgres" = "postgres" := by decide
    exact he ▸ h
  · exact choose_db_priority.2.1 none "mysql"
      (fun t => if t = "mysql" then some 1 else none) (by decide) (by decide) (by decide)
  · exact choose_db_priority.2.2.1 (some "  ") (some "") scenarioHealth
      (by decide) (by intro l hl; cases hl; exact Or.inl (by decide))

/-! ## Claim C9: raw dictionary conversion round trip -/

/-- C9: for a dictionary whose key set is exactly the live column list,
get_contact_as_dict_raw after build_contact_tuple reproduces the
dictionary (same keys, same value at every key); and on a tuple shorter
than the column list the columns beyond the tuple length are mapped to
None with the zipped values untransformed. -/
theorem raw_dict_round_trip :
    (∀ (columns : List String) (d : PyDict), columns.Nodup →
      List.Perm (d.map Prod.fst) columns →
      (SchemaManager.get_contact_as_dict_raw columns
          (SchemaManager.build_contact_tuple columns d)).map Prod.fst = columns
      ∧ ∀ k, dictGet (SchemaManager.get_contact_as_dict_raw columns
          (SchemaManager.build_contact_tuple columns d)) k = dictGet d k)
    ∧ (∀ (columns : List String) (t : List Val),
        SchemaManager.get_contact_as_dict_raw columns t =
          (columns.take t.length).zip t ++
            (columns.drop t.length).map (fun c => (c, Val.null))) := by
  constructor
  · intro columns d _hnd hkeys
    have hb : SchemaManager.build_contact_tuple columns d = columns.map (dictGet d) := rfl
    rw [hb, get_contact_as_dict_raw_map]
    constructor
    · rw [List.map_map]
      exact List.map_id columns
    · intro k
      rw [dictGet_map_pair]
      by_cases hk : k ∈ columns
      · simp [hk]
      · have : k ∉ d.map Prod.fst := fun hm => hk (hkeys.mem_iff.mp hm)
        simp [hk, dictGet_of_not_mem_keys d k this]
  · intro columns t
    induction columns generalizing t with
    | nil => simp [SchemaManager.get_contact_as_dict_raw]
    | cons c cs ih =>
      cases t with
      | nil => simp [SchemaManager.get_contact_as_dict_raw, ih []]
      | cons v vs => simp [SchemaManager.get_contact_as_dict_raw, ih vs]

/-- Witness for C9: a concrete two-column round trip with the dictionary
given in a different key order, and concrete padding of a short tuple. -/
theorem raw_dict_round_trip_witness :
    ((SchemaManager.get_contact_as_dict_raw ["id", "name"]
        (SchemaManager.build_contact_tuple ["id", "name"]
          [("name", Val.str "Ada"), ("id", Val.int 1)])).map Prod.fst = ["id", "name"]
      ∧ dictGet (SchemaManager.get_contact_as_dict_raw ["id", "name"]
          (SchemaManager.build_contact_tuple ["id", "name"]
            [("name", Val.str "Ada"), ("id", Val.int 1)])) "name" = Val.str "Ada")
    ∧ SchemaManager.get_contact_as_dict_raw ["id", "name", "phone"] [Val.int 1] =
        [("id", Val.int 1), ("name", Val.null), ("phone", Val.null)] := by
  constructor
  · have h := raw_dict_round_trip.1 ["id", "name"]
      [("name", Val.str "Ada"), ("id", Val.int 1)] (by decide)
      (by decide)
    exact ⟨h.1, by rw [h.2 "name"]; decide⟩
  · have h := raw_dict_round_trip.2 ["id", "name", "phone"] [Val.int 1]
    rw [h]; decide

/-! ## Search filters

The filters mapping passed to advanced_search.  Python truthiness rules
apply when the adapters read it: an absent key, an empty string, and a
zero identifier bound are all skipped. -/

/-- Optional predicates on name/phone/email and identifier range. -/
structure Filters where
  name : Option String
  phone : Option String
  email : Option String
  min_id : Option Nat
  max_id : Option Nat
deriving DecidableEq, Repr

/-- A provided, truthy string filter (Python: filters.get(k) is truthy). -/
def strFilterActive : Option String → Option String
  | some s => if s.isEmpty then none else some s
  | none => none

/-- A provided, truthy identifier bound (zero is falsy in Python). -/
def natFilterActive : Option Nat → Option Nat
  | some n => if n == 0 then none else some n
  | none => none

/-- The WHERE conditions collected by every advanced_search variant, in
source order: name, phone, email, min_id, max_id; inactive filters
contribute nothing. -/
def advConds {ρ : Type} (f : Filters)
    (nameLike phoneLike emailLike : String → ρ → Bool)
    (idGe idLe : Nat → ρ → Bool) : List (ρ → Bool) :=
  (match strFilterActive f.name with | some s => [nameLike s] | none => []) ++
  (match strFilterActive f.phone with | some s => [phoneLike s] | none => []) ++
  (match strFilterActive f.email with | some s => [emailLike s] | none => []) ++
  (match natFilterActive f.min_id with | some n => [idGe n] | none => []) ++
  (match natFilterActive f.max_id with | some n => [idLe n] | none => [])

/-! ## SQLite adapter (src/database/adapters/sqlite_adapter.py)

The contacts table is modelled as the list of its rows in rowid order
(SELECT * scans in rowid order, and id INTEGER PRIMARY KEY AUTOINCREMENT
is the rowid) together with the sqlite_sequence entry, the largest id
ever assigned.  The legacy table also declares age/address/department/
category/tags columns with constant defaults; no modelled operation
reads or writes them, so the row keeps the four columns the adapter
manipulates. -/

namespace SQLiteAdapter

/-- One contacts row: id, name, phone, email. -/
structure Row where
  id : Nat
  name : String
  phone : String
  email : String
deriving DecidableEq, Repr

/-- Table state: rows in rowid order plus the AUTOINCREMENT sequence. -/
structure State where
  rows : List Row
  seq : Nat
deriving DecidableEq, Repr

/-- create_table on a fresh database. -/
def create_table : State := ⟨[], 0⟩

/-- INSERT INTO contacts (name, phone, email): AUTOINCREMENT assigns
seq + 1 and the row is appended. -/
def add_contact (s : State) (name phone email : String) : State :=
  { rows := s.rows ++ [⟨s.seq + 1, name, phone, email⟩], seq := s.seq + 1 }

/-- SELECT * FROM contacts: full scan in rowid order. -/
def view_contacts (s : State) : List Row := s.rows

/-- SELECT * FROM contacts WHERE id = ?. -/
def get_contact_by_id (s : State) (cid : Nat) : Option Row :=
  s.rows.find? (fun r => r.id == cid)

/-- Write one of the three mutable columns of a row. -/
def setField (r : Row) (field : String) (v : String) : Row :=
  if field == "name" then { r with name := v }
  else if field == "phone" then { r with phone := v }
  else if field == "email" then { r with email := v }
  else r

/-- UPDATE contacts SET name = ? WHERE id = ?. -/
def update_contact_name (s : State) (cid : Nat) (v : String) : State :=
  { s with rows := s.rows.map (fun r => if r.id == cid then { r with name := v } else r) }

/-- UPDATE contacts SET phone = ? WHERE id = ?. -/
def update_contact_phone (s : State) (cid : Nat) (v : String) : State :=
  { s with rows := s.rows.map (fun r => if r.id == cid then { r with phone := v } else r) }

/-- UPDATE contacts SET email = ? WHERE id = ?. -/
def update_contact_email (s : State) (cid : Nat) (v : String) : State :=
  { s with rows := s.rows.map (fun r => if r.id == cid then { r with email := v } else r) }

/-- DELETE FROM contacts WHERE id = ?. -/
def delete_contact (s : State) (cid : Nat) : State :=
  { s with rows := s.rows.filter (fun r => r.id != cid) }

/-- The WHERE conditions collected by advanced_search. -/
def searchConds (f : Filters) : List (Row → Bool) :=
  advConds f (fun p r => likeCI p r.name) (fun p r => likeCI p r.phone)
    (fun p r => likeCI p r.email) (fun n r => decide (n ≤ r.id)) (fun n r => decide (r.id ≤ n))

/-- advanced_search: conditions joined with AND; with no conditions the
query returns the whole table. -/
def advanced_search (s : State) (f : Filters) : List Row :=
  let conds := searchConds f
  if conds.isEmpty then s.rows
  else s.rows.filter (fun r => conds.all (fun c => c r))

/-- bulk_update: empty id list or a field outside the allow-list returns
0 without touching the backend; otherwise the matched rows are updated
and rowcount is the number of matched rows. -/
def bulk_update (s : State) (ids : List Nat) (field : String) (v : String) : State × Nat :=
  if ids.isEmpty || !(["name", "phone", "email"].contains field) then (s, 0)
  else
    ({ s with rows := s.rows.map (fun r => if ids.contains r.id then setField r field v else r) },
     (s.rows.filter (fun r => ids.contains r.id)).length)

/-- bulk_delete: empty id list returns 0 without a backend call. -/
def bulk_delete (s : State) (ids : List Nat) : State × Nat :=
  if ids.isEmpty then (s, 0)
  else ({ s with rows := s.rows.filter (fun r => !(ids.contains r.id)) },
        (s.rows.filter (fun r => ids.contains r.id)).length)

/-- cleanup_db: DELETE FROM contacts WHERE name IS NULL OR name = ''. -/
def cleanup_db (s : State) : State × Nat :=
  ({ s with rows := s.rows.filter (fun r => !(r.name == "")) },
   (s.rows.filter (fun r => r.name == "")).length)

/-- Two rows carry the same (name, phone, email) triple. -/
def sameTriple (a b : Row) : Bool :=
  a.name == b.name && a.phone == b.phone && a.email == b.email

/-- A row whose id is MIN(id) of its (name, phone, email) group; with
distinct ids this is exactly membership of the id in the grouped minima
selected by the cleanup query. -/
def keepMinOfGroup (rows : List Row) (r : Row) : Bool :=
  rows.all (fun q => !(sameTriple r q) || decide (r.id ≤ q.id))

/-- full_cleanup_db of the legacy SQLite adapter: DELETE the rows whose
id is NOT IN (SELECT MIN(id) ... GROUP BY name, phone, email), then
VACUUM.  VACUUM changes neither the remaining rows nor the
sqlite_sequence entry of an AUTOINCREMENT table. -/
def full_cleanup_db (s : State) : State × Bool :=
  ({ s with rows := s.rows.filter (keepMinOfGroup s.rows) }, true)

/-- PRAGMA table_info(contacts) of the base legacy schema:
(cid, name, type, notnull, dflt_value, pk) per column. -/
def baseTableInfo : List (List Cell) :=
  [[Cell.i 0, Cell.s "id", Cell.s "INTEGER", Cell.i 0, Cell.null, Cell.i 1],
   [Cell.i 1, Cell.s "name", Cell.s "TEXT", Cell.i 1, Cell.null, Cell.i 0],
   [Cell.i 2, Cell.s "phone", Cell.s "TEXT", Cell.i 0, Cell.null, Cell.i 0],
   [Cell.i 3, Cell.s "email", Cell.s "TEXT", Cell.i 0, Cell.null, Cell.i 0],
   [Cell.i 4, Cell.s "age", Cell.s "INTEGER", Cell.i 0, Cell.s "0", Cell.i 0],
   [Cell.i 5, Cell.s "address", Cell.s "TEXT", Cell.i 0, Cell.s "Unknown", Cell.i 0],
   [Cell.i 6, Cell.s "department", Cell.s "TEXT", Cell.i 0, Cell.s "General", Cell.i 0],
   [Cell.i 7, Cell.s "category", Cell.s "TEXT", Cell.i 0, Cell.s "General", Cell.i 0],
   [Cell.i 8, Cell.s "tags", Cell.s "TEXT", Cell.i 0, Cell.s "", Cell.i 0]]

/-- PRAGMA rows of columns appended by ALTER TABLE ADD COLUMN, starting
at the given cid. -/
def extraInfoRows (start : Nat) : List String → List (List Cell)
  | [] => []
  | c :: cs =>
    [Cell.i (Int.ofNat start), Cell.s c, Cell.s "TEXT", Cell.i 0, Cell.null, Cell.i 0] ::
      extraInfoRows (start + 1) cs

/-- get_table_info: the base columns followed by any added columns in
declaration order. -/
def get_table_info (extraCols : List String) : List (List Cell) :=
  baseTableInfo ++ extraInfoRows 9 extraCols

end SQLiteAdapter

/-! ## Legacy core ContactDatabase (src/src/contact_manager/core/core_operations.py)

Its contacts table has the four columns id, name, phone, email; rows are
modelled like the SQLite adapter rows.  Only advanced_search differs
from the adapter: the legacy path joins the conditions with OR. -/

namespace ContactDatabase

/-- The WHERE conditions collected by the legacy advanced_search (built
exactly as in the SQLite adapter). -/
def searchConds (f : Filters) : List (SQLiteAdapter.Row → Bool) :=
  advConds f (fun p r => likeCI p r.name) (fun p r => likeCI p r.phone)
    (fun p r => likeCI p r.email) (fun n r => decide (n ≤ r.id)) (fun n r => decide (r.id ≤ n))

/-- advanced_search of the legacy core: conditions joined with OR. -/
def advanced_search (rows : List SQLiteAdapter.Row) (f : Filters) : List SQLiteAdapter.Row :=
  let conds := searchConds f
  if conds.isEmpty then rows
  else rows.filter (fun r => conds.any (fun c => c r))

end ContactDatabase

/-- SQL LIKE / ILIKE applied to a stored value: NULL never matches and
the columns searched only hold strings. -/
def valLikeCI (pat : String) (v : Val) : Bool :=
  match v with
  | .str s => likeCI pat s
  | _ => false

/-! ## PostgreSQL adapter
(src/src/contact_manager/database/adapters/postgres_adapter.py)

The contacts table is the list of its rows, the SERIAL sequence holds
the next id to assign, and the live schema is the six base columns plus
the user-added columns.  Added columns are modelled without declared
defaults (no claim exercises a default on an added column). -/

namespace PostgreSQLAdapter

/-- One contacts row: the six base columns plus added-column values. -/
structure Row where
  id : Nat
  name : Val
  phone : Val
  email : Val
  created_at : Nat
  updated_at : Nat
  extras : List (String × Val)
deriving DecidableEq, Repr

/-- Table state: rows, the SERIAL sequence, the added columns. -/
structure State where
  rows : List Row
  nextId : Nat
  extraCols : List String
deriving DecidableEq, Repr

/-- create_table on a fresh database: empty table, sequence at 1,
update trigger installed. -/
def create_table : State := ⟨[], 1, []⟩

/-- information_schema.columns names excluding id, as read by
add_contact and update_contact. -/
def validColumnsNoId (s : State) : List String :=
  ["name", "phone", "email", "created_at", "updated_at"] ++ s.extraCols

/-- Filter client fields to valid columns and pop the two timestamps
(they are always backend-derived). -/
def timestampFreeFields (s : State) (fields : PyDict) : PyDict :=
  fields.filter (fun kv => (validColumnsNoId s).contains kv.1 &&
    !(kv.1 == "created_at") && !(kv.1 == "updated_at"))

/-- add_contact: name required, fields filtered to valid columns with
timestamps popped; unspecified columns take their defaults, the
timestamps the transaction time, the id the next SERIAL value. -/
def add_contact (now : Nat) (s : State) (fields : PyDict) : Except String State :=
  if !(fields.any (fun kv => kv.1 == "name")) then .error "Name is required"
  else
    let ins := timestampFreeFields s fields
    if ins.isEmpty then .error "No valid fields to insert"
    else
      let row : Row :=
        { id := s.nextId, name := dictGet ins "name", phone := dictGet ins "phone",
          email := dictGet ins "email", created_at := now, updated_at := now,
          extras := s.extraCols.map (fun c => (c, dictGet ins c)) }
      .ok { s with rows := s.rows ++ [row], nextId := s.nextId + 1 }

/-- Write one column of a row (base column or added column). -/
def setRowField (r : Row) (k : String) (v : Val) : Row :=
  if k == "name" then { r with name := v }
  else if k == "phone" then { r with phone := v }
  else if k == "email" then { r with email := v }
  else { r with extras := r.extras.map (fun kv => if kv.1 == k then (kv.1, v) else kv) }

/-- Apply every provided field in order. -/
def applyFields (r : Row) (fs : PyDict) : Row :=
  fs.foldl (fun r kv => setRowField r kv.1 kv.2) r

/-- update_contact: rejects an empty field set, filters to valid
columns, pops the timestamps; the update trigger stamps updated_at on
every row the UPDATE touches. -/
def update_contact (now : Nat) (s : State) (cid : Nat) (fields : PyDict) :
    Except String State :=
  if fields.isEmpty then .error "No fields to update"
  else
    let upd := timestampFreeFields s fields
    if upd.isEmpty then .error "No valid fields to update"
    else .ok { s with rows := s.rows.map (fun r =>
      if r.id == cid then { applyFields r upd with updated_at := now } else r) }

/-- Row comparison by identifier, for ORDER BY id. -/
def rowLe (a b : Row) : Prop := a.id ≤ b.id

instance : DecidableRel rowLe := fun a b => Nat.decLe a.id b.id

instance : IsTotal Row rowLe := ⟨fun a b => Nat.le_total a.id b.id⟩

instance : IsTrans Row rowLe := ⟨fun _ _ _ ha hb => Nat.le_trans ha hb⟩

/-- SELECT * FROM contacts ORDER BY id. -/
def view_contacts (s : State) : List Row := List.insertionSort rowLe s.rows

/-- The WHERE conditions collected by advanced_search. -/
def searchConds (f : Filters) : List (Row → Bool) :=
  advConds f (fun p r => valLikeCI p r.name) (fun p r => valLikeCI p r.phone)
    (fun p r => valLikeCI p r.email) (fun n r => decide (n ≤ r.id)) (fun n r => decide (r.id ≤ n))

/-- advanced_search: the collected conditions are joined with OR, and
the result is ordered by id; with no conditions the whole table is
returned. -/
def advanced_search (s : State) (f : Filters) : List Row :=
  let conds := searchConds f
  List.insertionSort rowLe
    (if conds.isEmpty then s.rows else s.rows.filter (fun r => conds.any (fun c => c r)))

/-- bulk_update: an empty id list returns 0 before any backend call; the
field is validated against the live columns minus id and the timestamps
(not against the fixed allow-list); on success the matched rows receive
the value and a fresh updated_at, and rowcount is the matched count. -/
def bulk_update (now : Nat) (s : State) (ids : List Nat) (field : String) (v : Val) :
    State × Nat :=
  if ids.isEmpty then (s, 0)
  else
    let validColumns := (["name", "phone", "email"] : List String) ++ s.extraCols
    if !(validColumns.contains field) then (s, 0)
    else
      ({ s with rows := s.rows.map (fun r =>
          if ids.contains r.id then { setRowField r field v with updated_at := now } else r) },
       (s.rows.filter (fun r => ids.contains r.id)).length)

/-- bulk_delete: empty id list returns 0 without a backend call. -/
def bulk_delete (s : State) (ids : List Nat) : State × Nat :=
  if ids.isEmpty then (s, 0)
  else ({ s with rows := s.rows.filter (fun r => !(ids.contains r.id)) },
        (s.rows.filter (fun r => ids.contains r.id)).length)

/-- full_cleanup_db: DELETE FROM contacts, ALTER SEQUENCE RESTART WITH 1,
VACUUM ANALYZE. -/
def full_cleanup_db (s : State) : State × Bool :=
  ({ s with rows := [], nextId := 1 }, true)

/-- information_schema introspection in ordinal position:
(column_name, data_type, is_nullable, column_default). -/
def get_table_info (extraCols : List String) : List (List Cell) :=
  [[Cell.s "id", Cell.s "integer", Cell.s "NO", Cell.s "nextval"],
   [Cell.s "name", Cell.s "character varying", Cell.s "NO", Cell.null],
   [Cell.s "phone", Cell.s "character varying", Cell.s "YES", Cell.null],
   [Cell.s "email", Cell.s "character varying", Cell.s "YES", Cell.null],
   [Cell.s "created_at", Cell.s "timestamp without time zone", Cell.s "YES", Cell.s "now"],
   [Cell.s "updated_at", Cell.s "timestamp without time zone", Cell.s "YES", Cell.s "now"]] ++
  extraCols.map (fun c => [Cell.s c, Cell.s "text", Cell.s "YES", Cell.null])

end PostgreSQLAdapter

/-! ## MySQL adapter (src/database/adapters/mysql_adapter.py)

The legacy MySQL table has the four base columns id, name, phone, email
and an AUTO_INCREMENT counter holding the next id. -/

namespace MySQLAdapter

/-- One contacts row. -/
structure Row where
  id : Nat
  name : Val
  phone : Val
  email : Val
deriving DecidableEq, Repr

/-- Table state: rows plus the AUTO_INCREMENT counter (next id). -/
structure State where
  rows : List Row
  nextId : Nat
deriving DecidableEq, Repr

/-- create_table on a fresh database. -/
def create_table : State := ⟨[], 1⟩

/-- add_contact: name required; fields filtered to the live columns
(SHOW COLUMNS minus id; the base schema has name, phone, email). -/
def add_contact (s : State) (fields : PyDict) : Except String State :=
  if !(fields.any (fun kv => kv.1 == "name")) then .error "Name is required"
  else
    let ins := fields.filter (fun kv => (["name", "phone", "email"] : List String).contains kv.1)
    if ins.isEmpty then .error "No valid fields to insert"
    else
      let row : Row := ⟨s.nextId, dictGet ins "name", dictGet ins "phone", dictGet ins "email"⟩
      .ok { rows := s.rows ++ [row], nextId := s.nextId + 1 }

/-- Row comparison by identifier, for ORDER BY id. -/
def rowLe (a b : Row) : Prop := a.id ≤ b.id

instance : DecidableRel rowLe := fun a b => Nat.decLe a.id b.id

instance : IsTotal Row rowLe := ⟨fun a b => Nat.le_total a.id b.id⟩

instance : IsTrans Row rowLe := ⟨fun _ _ _ ha hb => Nat.le_trans ha hb⟩

/-- SELECT * FROM contacts ORDER BY id. -/
def view_contacts (s : State) : List Row := List.insertionSort rowLe s.rows

/-- The WHERE conditions collected by advanced_search. -/
def searchConds (f : Filters) : List (Row → Bool) :=
  advConds f (fun p r => valLikeCI p r.name) (fun p r => valLikeCI p r.phone)
    (fun p r => valLikeCI p r.email) (fun n r => decide (n ≤ r.id)) (fun n r => decide (r.id ≤ n))

/-- advanced_search: conditions joined with AND, result ordered by id. -/
def advanced_search (s : State) (f : Filters) : List Row :=
  let conds := searchConds f
  List.insertionSort rowLe
    (if conds.isEmpty then s.rows else s.rows.filter (fun r => conds.all (fun c => c r)))

/-- Write one of the three mutable columns. -/
def setField (r : Row) (field : String) (v : Val) : Row :=
  if field == "name" then { r with name := v }
  else if field == "phone" then { r with phone := v }
  else if field == "email" then { r with email := v }
  else r

/-- bulk_update: empty id list or a field outside the allow-list
returns 0 without touching the backend. -/
def bulk_update (s : State) (ids : List Nat) (field : String) (v : Val) : State × Nat :=
  if ids.isEmpty || !(["name", "phone", "email"].contains field) then (s, 0)
  else
    ({ s with rows := s.rows.map (fun r => if ids.contains r.id then setField r field v else r) },
     (s.rows.filter (fun r => ids.contains r.id)).length)

/-- bulk_delete: empty id list returns 0 without a backend call. -/
def bulk_delete (s : State) (ids : List Nat) : State × Nat :=
  if ids.isEmpty then (s, 0)
  else ({ s with rows := s.rows.filter (fun r => !(ids.contains r.id)) },
        (s.rows.filter (fun r => ids.contains r.id)).length)

/-- full_cleanup_db: DELETE FROM contacts, AUTO_INCREMENT = 1, OPTIMIZE. -/
def full_cleanup_db (_s : State) : State × Bool :=
  ({ rows := [], nextId := 1 }, true)

/-- DESCRIBE contacts: (Field, Type, Null, Key, Default, Extra) rows in
declaration order — the four base columns first, added columns
appended. -/
def get_table_info (extraCols : List String) : List (List Cell) :=
  [[Cell.s "id", Cell.s "int", Cell.s "NO", Cell.s "PRI", Cell.null, Cell.s "auto_increment"],
   [Cell.s "name", Cell.s "varchar(255)", Cell.s "NO", Cell.s "", Cell.null, Cell.s ""],
   [Cell.s "phone", Cell.s "varchar(50)", Cell.s "YES", Cell.s "", Cell.null, Cell.s ""],
   [Cell.s "email", Cell.s "varchar(255)", Cell.s "YES", Cell.s "", Cell.null, Cell.s ""]] ++
  extraCols.map (fun c =>
    [Cell.s c, Cell.s "text", Cell.s "YES", Cell.s "", Cell.null, Cell.s ""])

end MySQLAdapter

/-! ## MongoDB adapter (src/database/adapters/mongo_adapter.py)

A collection is the list of its documents in natural (insertion) order;
the counters collection entry for contact ids is the counter field.
Documents are Python-dict shaped: ordered key/value pairs. -/

namespace MongoDBAdapter

/-- A contact document. -/
abbrev Doc := PyDict

/-- Collection state: documents in insertion order plus the id counter
(counters.sequence_value, the last id handed out). -/
structure State where
  docs : List Doc
  counter : Nat
deriving DecidableEq, Repr

/-- A fresh collection after create_table: no documents, counter 0. -/
def create_table : State := ⟨[], 0⟩

/-- The id field of a document (always an integer in stored contacts). -/
def docId (d : Doc) : Int :=
  match dictGet d "id" with
  | .int n => n
  | _ => 0

/-- add_contact: name required; the document starts with the assigned id
and the two backend timestamps and is then updated with every provided
field, so a provided field overwrites the backend value of the same
key. -/
def add_contact (now : Nat) (s : State) (fields : PyDict) : Except String State :=
  if !(fields.any (fun kv => kv.1 == "name")) then .error "Name is required"
  else
    let cid := s.counter + 1
    let base : Doc :=
      [("id", Val.int (Int.ofNat cid)), ("created_at", Val.time now), ("updated_at", Val.time now)]
    let contact := dictUpdate base fields
    .ok { docs := s.docs ++ [contact], counter := cid }

/-- update_one with a $set document: the first matching document is
updated in place. -/
def updateFirst (cid : Int) (setFields : PyDict) : List Doc → List Doc
  | [] => []
  | d :: ds =>
    if docId d == cid then dictUpdate d setFields :: ds
    else d :: updateFirst cid setFields ds

/-- update_contact: rejects an empty field set; the $set document is the
provided fields with updated_at assigned the backend time (overwriting a
provided updated_at, but leaving a provided created_at in place). -/
def update_contact (now : Nat) (s : State) (cid : Int) (fields : PyDict) :
    Except String State :=
  if fields.isEmpty then .error "No fields to update"
  else
    let updateFields := dictUpdate fields [("updated_at", Val.time now)]
    .ok { s with docs := updateFirst cid updateFields s.docs }

/-- Document comparison by id, for sort('id', 1). -/
def docLe (a b : Doc) : Prop := docId a ≤ docId b

instance : DecidableRel docLe := fun a b => Int.decLe (docId a) (docId b)

instance : IsTotal Doc docLe := ⟨fun a b => Int.le_total (docId a) (docId b)⟩

instance : IsTrans Doc docLe := ⟨fun _ _ _ ha hb => Int.le_trans ha hb⟩

/-- Internal fields hidden from the visible schema. -/
def reservedKeys : List String :=
  ["_id", "id", "name", "phone", "email", "created_at", "updated_at"]

/-- User-added fields discovered on the sample document (find_one on the
collection returns its first document). -/
def discoveredKeys (sample : Option Doc) : List String :=
  match sample with
  | none => []
  | some d => (d.map Prod.fst).filter (fun k => !(reservedKeys.contains k))

/-- get_table_info: the four visible base columns plus discovered
user-added fields; the timestamps are internal and not reported. -/
def get_table_info (sample : Option Doc) : List (List Cell) :=
  [[Cell.s "id", Cell.s "Integer", Cell.s "NO", Cell.s "auto-increment"],
   [Cell.s "name", Cell.s "String", Cell.s "NO", Cell.null],
   [Cell.s "phone", Cell.s "String", Cell.s "YES", Cell.null],
   [Cell.s "email", Cell.s "String", Cell.s "YES", Cell.null]] ++
  (discoveredKeys sample).map (fun k => [Cell.s k, Cell.s "String", Cell.s "YES", Cell.null])

/-- The visible column names, in get_table_info order. -/
def columnNames (sample : Option Doc) : List String :=
  "id" :: "name" :: "phone" :: "email" :: discoveredKeys sample

/-- _doc_to_tuple: the document values in visible column order. -/
def doc_to_tuple (sample : Option Doc) (d : Doc) : List Val :=
  (columnNames sample).map (dictGet d)

/-- find({}).sort('id', 1) before tuple conversion. -/
def view_docs (s : State) : List Doc := List.insertionSort docLe s.docs

/-- view_contacts: all documents sorted by id, converted to tuples. -/
def view_contacts (s : State) : List (List Val) :=
  (view_docs s).map (doc_to_tuple s.docs.head?)

/-- The find query built by advanced_search: one conjunctive condition
per active filter (a Mongo query document matches when every clause
matches; $gte and $lte on id combine on the same key). -/
def searchConds (f : Filters) : List (Doc → Bool) :=
  advConds f (fun p d => valLikeCI p (dictGet d "name"))
    (fun p d => valLikeCI p (dictGet d "phone"))
    (fun p d => valLikeCI p (dictGet d "email"))
    (fun n d => decide ((Int.ofNat n) ≤ docId d))
    (fun n d => decide (docId d ≤ (Int.ofNat n)))

/-- Whether a document matches the query: all clauses hold. -/
def advMatches (f : Filters) (d : Doc) : Bool :=
  (searchConds f).all (fun c => c d)

/-- advanced_search, before tuple conversion: matching documents sorted
by id. -/
def advanced_search_docs (s : State) (f : Filters) : List Doc :=
  List.insertionSort docLe (s.docs.filter (advMatches f))

/-- advanced_search: matching documents sorted by id, as tuples. -/
def advanced_search (s : State) (f : Filters) : List (List Val) :=
  (advanced_search_docs s f).map (doc_to_tuple s.docs.head?)

/-- bulk_update: empty id list or a field outside the allow-list returns
0; otherwise update_many sets the field and a fresh updated_at on every
matching document. -/
def bulk_update (now : Nat) (s : State) (ids : List Int) (field : String) (v : Val) :
    State × Nat :=
  if ids.isEmpty || !(["name", "phone", "email"].contains field) then (s, 0)
  else
    ({ s with docs := s.docs.map (fun d =>
        if ids.contains (docId d) then dictUpdate d [(field, v), ("updated_at", Val.time now)]
        else d) },
     (s.docs.filter (fun d => ids.contains (docId d))).length)

/-- bulk_delete: empty id list returns 0 without a backend call. -/
def bulk_delete (s : State) (ids : List Int) : State × Nat :=
  if ids.isEmpty then (s, 0)
  else ({ s with docs := s.docs.filter (fun d => !(ids.contains (docId d))) },
        (s.docs.filter (fun d => ids.contains (docId d))).length)

/-- full_cleanup_db: delete_many({}) and the counter reset to 0, so the
next assigned id is 1. -/
def full_cleanup_db (_s : State) : State × Bool :=
  ({ docs := [], counter := 0 }, true)

end MongoDBAdapter

/-! ## Factory and manager
(src/src/contact_manager/database/factory.py, src/database/manager.py)

An adapter value is abstracted to its backend label and the outcome of
its connection probe; the construction step is a parameter that may fail
with an exception (modelled as Except), covering constructor errors of
any concrete adapter class. -/

namespace DatabaseFactory

/-- A constructed adapter: its backend label and whether its
test_connection probe succeeds. -/
structure Adapter where
  dbType : String
  testOk : Bool
deriving DecidableEq, Repr

/-- The registry keys: primary types plus internal aliases. -/
def registryKeys : List String :=
  ["sqlite", "mysql", "postgres", "postgresql", "mongodb", "mongo"]

/-- create_adapter: unknown identifiers fail with an unsupported-type
error; otherwise the adapter class constructor runs (and may itself
fail). -/
def create_adapter (construct : String → Except String Adapter) (t : String) :
    Except String Adapter :=
  if registryKeys.contains t then construct t
  else .error ("Unsupported database type: " ++ t)

/-- create_with_test: construct, then probe; a failed probe raises a
connection error. -/
def create_with_test (construct : String → Except String Adapter) (t : String) :
    Except String Adapter :=
  match create_adapter construct t with
  | .error e => .error e
  | .ok a => if a.testOk then .ok a else .error ("Failed to connect to " ++ t ++ " database")

end DatabaseFactory

namespace DatabaseManager

/-- Manager state: the cached adapter, the current backend identifier,
the persisted settings value and the last-used tracker record. -/
structure State where
  current_adapter : Option DatabaseFactory.Adapter
  current_db_type : String
  settingsType : String
  lastUsed : Option String
deriving DecidableEq, Repr

/-- switch_database: build and probe a new adapter first; only on
success replace the adapter, the identifier and the persisted records
(the write to the tracker and the disposal of the old adapter are
best-effort and cannot fail the switch); any exception from
construction or the probe is caught and reported as false with no state
change. -/
def switch_database (construct : String → Except String DatabaseFactory.Adapter)
    (s : State) (t : String) : State × Bool :=
  match DatabaseFactory.create_with_test construct t with
  | .error _ => (s, false)
  | .ok a =>
    ({ current_adapter := some a, current_db_type := t,
       settingsType := t, lastUsed := some t }, true)

end DatabaseManager

/-! ## Contact validator
(src/src/contact_manager/validation/validation_utils.py)

The uniqueness checks list all contacts through the active adapter
inside a try block; the listing is modelled as Except, error meaning the
adapter raised.  Each record tuple is converted with the schema manager
(get_contact_as_dict only reformats the timestamp columns, so the raw
conversion gives the same id and email/phone values). -/

namespace ContactValidator

/-- Render a value into the duplicate message. -/
def Val.render : Val → String
  | .str s => s
  | .int n => toString n
  | .time t => toString t
  | .null => "None"

/-- The loop of check_email_uniqueness over the listed contacts:
skip the excluded id (when truthy), report the first stored email whose
stripped lower-case form equals the candidate. -/
def email_scan (columns : List String) (e : String) (excludeId : Option Int) :
    List (List Val) → Bool × String
  | [] => (true, "Email is unique")
  | c :: rest =>
    let d := SchemaManager.get_contact_as_dict_raw columns c
    let cid := dictGet d "id"
    let cemail := dictGet d "email"
    if (match excludeId with
        | some x => !(x == 0) && cid == Val.int x
        | none => false) then email_scan columns e excludeId rest
    else
      match cemail with
      | Val.str es =>
        if !es.isEmpty && py_lower (py_strip es) == e then
          (false, "Email " ++ e ++ " is already used by contact ID " ++ Val.render cid)
        else email_scan columns e excludeId rest
      | _ => email_scan columns e excludeId rest

/-- check_email_uniqueness: empty or blank email is vacuously unique; a
raising adapter listing is caught and reported as non-unique with an
error message; otherwise the records are scanned. -/
def check_email_uniqueness (columns : List String)
    (listing : Except String (List (List Val)))
    (email : String) (excludeId : Option Int) : Bool × String :=
  if (py_strip email).isEmpty then (true, "Email is empty")
  else
    let e := py_lower (py_strip email)
    match listing with
    | .error exc => (false, "Error checking email uniqueness: " ++ exc)
    | .ok contacts => email_scan columns e excludeId contacts

/-- The loop of check_phone_uniqueness over the listed contacts. -/
def phone_scan (columns : List String) (p : String) (excludeId : Option Int) :
    List (List Val) → Bool × String
  | [] => (true, "Phone is unique")
  | c :: rest =>
    let d := SchemaManager.get_contact_as_dict_raw columns c
    let cid := dictGet d "id"
    let cphone := dictGet d "phone"
    if (match excludeId with
        | some x => !(x == 0) && cid == Val.int x
        | none => false) then phone_scan columns p excludeId rest
    else
      match cphone with
      | Val.str ps =>
        if !ps.isEmpty && py_strip ps == p then
          (false, "Phone " ++ p ++ " is already used by contact ID " ++ Val.render cid)
        else phone_scan columns p excludeId rest
      | _ => phone_scan columns p excludeId rest

/-- check_phone_uniqueness: empty or blank phone is vacuously unique; a
raising adapter listing is caught and reported as non-unique with an
error message. -/
def check_phone_uniqueness (columns : List String)
    (listing : Except String (List (List Val)))
    (phone : String) (excludeId : Option Int) : Bool × String :=
  if (py_strip phone).isEmpty then (true, "Phone is empty")
  else
    let p := py_strip phone
    match listing with
    | .error exc => (false, "Error checking phone uniqueness: " ++ exc)
    | .ok contacts => phone_scan columns p excludeId contacts

end ContactValidator

/-! ## Claim C1: full cleanup and identifier reset -/

/-- Three distinct contacts inserted into a fresh legacy SQLite table. -/
def sqliteThree : SQLiteAdapter.State :=
  SQLiteAdapter.add_contact (SQLiteAdapter.add_contact (SQLiteAdapter.add_contact
    SQLiteAdapter.create_table "Ada" "1" "a@x.com") "Bob" "2" "b@x.com") "Cem" "3" "c@x.com"

/-- C1 counterexample: on the legacy SQLite adapter, full_cleanup_db
after three distinct inserts deletes no record and does not reset the
sequence; the next inserted contact receives identifier 4, not 1. -/
theorem full_cleanup_sqlite_counterexample :
    (SQLiteAdapter.full_cleanup_db sqliteThree).1.rows.length = 3
    ∧ (SQLiteAdapter.add_contact (SQLiteAdapter.full_cleanup_db sqliteThree).1
        "Dan" "4" "d@x.com").rows.map SQLiteAdapter.Row.id = [1, 2, 3, 4] := by
  constructor <;> decide

/-- C1 amended: the PostgreSQL, MySQL and MongoDB adapters delete every
record and reset the identifier sequence, so the contact inserted next
is assigned identifier 1 (for MongoDB provided the caller does not pass
an explicit id field, which would overwrite the counter value); the
legacy SQLite adapter instead keeps exactly the rows whose id is the
minimum of their (name, phone, email) duplicate group and leaves the
identifier sequence untouched. -/
theorem full_cleanup_amended :
    (∀ (s : PostgreSQLAdapter.State) (now : Nat) (fields : PyDict)
        (st : PostgreSQLAdapter.State),
      PostgreSQLAdapter.add_contact now (PostgreSQLAdapter.full_cleanup_db s).1 fields =
        .ok st → st.rows.map PostgreSQLAdapter.Row.id = [1])
    ∧ (∀ (s : MySQLAdapter.State) (fields : PyDict) (st : MySQLAdapter.State),
        MySQLAdapter.add_contact (MySQLAdapter.full_cleanup_db s).1 fields = .ok st →
        st.rows.map MySQLAdapter.Row.id = [1])
    ∧ (∀ (s : MongoDBAdapter.State) (now : Nat) (fields : PyDict)
        (st : MongoDBAdapter.State),
        dictGet? fields "id" = none →
        MongoDBAdapter.add_contact now (MongoDBAdapter.full_cleanup_db s).1 fields = .ok st →
        st.docs.map MongoDBAdapter.docId = [1])
    ∧ (∀ s : SQLiteAdapter.State,
        (SQLiteAdapter.full_cleanup_db s).1.seq = s.seq
        ∧ ∀ r, r ∈ (SQLiteAdapter.full_cleanup_db s).1.rows ↔
            r ∈ s.rows ∧ SQLiteAdapter.keepMinOfGroup s.rows r = true) := by
  refine ⟨?_, ?_, ?_, ?_⟩
  · intro s now fields st h
    by_cases hname : (fields.any fun kv => kv.1 == "name") = true
    · simp only [PostgreSQLAdapter.add_contact, PostgreSQLAdapter.full_cleanup_db,
        hname, Bool.not_true, Bool.false_eq_true, if_false, reduceIte] at h
      split at h
      · simp at h
      · rw [Except.ok.injEq] at h
        rw [← h]
        simp
    · simp [PostgreSQLAdapter.add_contact, PostgreSQLAdapter.full_cleanup_db, hname] at h
  · intro s fields st h
    by_cases hname : (fields.any fun kv => kv.1 == "name") = true
    · simp only [MySQLAdapter.add_contact, MySQLAdapter.full_cleanup_db,
        hname, Bool.not_true, Bool.false_eq_true, if_false, reduceIte] at h
      split at h
      · simp at h
      · rw [Except.ok.injEq] at h
        rw [← h]
        simp
    · simp [MySQLAdapter.add_contact, MySQLAdapter.full_cleanup_db, hname] at h
  · intro s now fields st hid h
    by_cases hname : (fields.any fun kv => kv.1 == "name") = true
    · simp [MongoDBAdapter.add_contact, MongoDBAdapter.full_cleanup_db, hname] at h
      rw [← h]
      simp [MongoDBAdapter.docId, dictUpdate, dictGet, hid]
    · simp [MongoDBAdapter.add_contact, MongoDBAdapter.full_cleanup_db, hname] at h
  · intro s
    exact ⟨rfl, fun r => List.mem_filter⟩

/-- A state used to seed the C1 witness scenarios. -/
def pgSeed : PostgreSQLAdapter.State :=
  ⟨[⟨7, Val.str "Old", Val.null, Val.null, 0, 0, []⟩], 8, []⟩

/-- Witness for C1 at concrete inputs: after a full cleanup each
client-server backend assigns identifier 1 to the next insert, and the
SQLite conjunct evaluates on the three-contact scenario state. -/
theorem full_cleanup_amended_witness :
    PostgreSQLAdapter.add_contact 5 (PostgreSQLAdapter.full_cleanup_db pgSeed).1
        [("name", Val.str "Dan")] =
      .ok ⟨[⟨1, Val.str "Dan", Val.null, Val.null, 5, 5, []⟩], 2, []⟩
    ∧ ([⟨1, Val.str "Dan", Val.null, Val.null, 5, 5, []⟩] :
        List PostgreSQLAdapter.Row).map PostgreSQLAdapter.Row.id = [1]
    ∧ (⟨[⟨1, Val.str "Eve", Val.null, Val.null⟩], 2⟩ :
        MySQLAdapter.State).rows.map MySQLAdapter.Row.id = [1]
    ∧ (⟨[[("id", Val.int 1), ("created_at", Val.time 9), ("updated_at", Val.time 9),
          ("name", Val.str "Fay")]], 1⟩ :
        MongoDBAdapter.State).docs.map MongoDBAdapter.docId = [1]
    ∧ (SQLiteAdapter.full_cleanup_db sqliteThree).1.seq = sqliteThree.seq := by
  have hpg : PostgreSQLAdapter.add_contact 5 (PostgreSQLAdapter.full_cleanup_db pgSeed).1
      [("name", Val.str "Dan")] =
      .ok ⟨[⟨1, Val.str "Dan", Val.null, Val.null, 5, 5, []⟩], 2, []⟩ := by rfl
  have hmy : MySQLAdapter.add_contact (MySQLAdapter.full_cleanup_db ⟨[], 9⟩).1
      [("name", Val.str "Eve")] =
      .ok ⟨[⟨1, Val.str "Eve", Val.null, Val.null⟩], 2⟩ := by rfl
  have hmo : MongoDBAdapter.add_contact 9 (MongoDBAdapter.full_cleanup_db ⟨[], 9⟩).1
      [("name", Val.str "Fay")] =
      .ok ⟨[[("id", Val.int 1), ("created_at", Val.time 9), ("updated_at", Val.time 9),
        ("name", Val.str "Fay")]], 1⟩ := by rfl
  refine ⟨hpg, ?_, ?_, ?_, ?_⟩
  · exact full_cleanup_amended.1 pgSeed 5 [("name", Val.str "Dan")] _ hpg
  · exact full_cleanup_amended.2.1 ⟨[], 9⟩ [("name", Val.str "Eve")] _ hmy
  · exact full_cleanup_amended.2.2.1 ⟨[], 9⟩ 9 [("name", Val.str "Fay")] _ (by decide) hmo
  · exact (full_cleanup_amended.2.2.2 sqliteThree).1

/-! ## Claim C2: advanced_search predicate combination -/

theorem str_isEmpty_false {s : String} (h : s ≠ "") : s.isEmpty = false := by
  cases hs : s.isEmpty
  · rfl
  · exact absurd ((String.isEmpty_iff s).mp hs) h

theorem mem_advConds_name {ρ : Type} (f : Filters)
    (nl pl el : String → ρ → Bool) (ge le : Nat → ρ → Bool) {s : String}
    (hf : f.name = some s) (hs : s ≠ "") : nl s ∈ advConds f nl pl el ge le := by
  simp [advConds, strFilterActive, hf, str_isEmpty_false hs]

theorem mem_advConds_phone {ρ : Type} (f : Filters)
    (nl pl el : String → ρ → Bool) (ge le : Nat → ρ → Bool) {s : String}
    (hf : f.phone = some s) (hs : s ≠ "") : pl s ∈ advConds f nl pl el ge le := by
  simp [advConds, strFilterActive, hf, str_isEmpty_false hs]

theorem mem_advConds_email {ρ : Type} (f : Filters)
    (nl pl el : String → ρ → Bool) (ge le : Nat → ρ → Bool) {s : String}
    (hf : f.email = some s) (hs : s ≠ "") : el s ∈ advConds f nl pl el ge le := by
  simp [advConds, strFilterActive, hf, str_isEmpty_false hs]

theorem mem_advConds_min {ρ : Type} (f : Filters)
    (nl pl el : String → ρ → Bool) (ge le : Nat → ρ → Bool) {n : Nat}
    (hf : f.min_id = some n) (hn : n ≠ 0) : ge n ∈ advConds f nl pl el ge le := by
  simp [advConds, natFilterActive, hf, hn]

theorem mem_advConds_max {ρ : Type} (f : Filters)
    (nl pl el : String → ρ → Bool) (ge le : Nat → ρ → Bool) {n : Nat}
    (hf : f.max_id = some n) (hn : n ≠ 0) : le n ∈ advConds f nl pl el ge le := by
  simp [advConds, natFilterActive, hf, hn]

/-- A record that passes every collected condition satisfies every
provided, truthy filter. -/
theorem advConds_all_imp {ρ : Type} (f : Filters) (nl pl el : String → ρ → Bool)
    (ge le : Nat → ρ → Bool) (r : ρ)
    (h : ∀ c ∈ advConds f nl pl el ge le, c r = true) :
    (∀ p, f.name = some p → p ≠ "" → nl p r = true) ∧
    (∀ p, f.phone = some p → p ≠ "" → pl p r = true) ∧
    (∀ p, f.email = some p → p ≠ "" → el p r = true) ∧
    (∀ n, f.min_id = some n → n ≠ 0 → ge n r = true) ∧
    (∀ n, f.max_id = some n → n ≠ 0 → le n r = true) :=
  ⟨fun _ hf hp => h _ (mem_advConds_name f nl pl el ge le hf hp),
   fun _ hf hp => h _ (mem_advConds_phone f nl pl el ge le hf hp),
   fun _ hf hp => h _ (mem_advConds_email f nl pl el ge le hf hp),
   fun _ hf hn => h _ (mem_advConds_min f nl pl el ge le hf hn),
   fun _ hf hn => h _ (mem_advConds_max f nl pl el ge le hf hn)⟩

/-- Spec-side reading of C2 for a legacy SQLite row: the record
satisfies every provided truthy substring filter and lies within every
provided truthy identifier bound. -/
def sqliteRowMatchesAll (f : Filters) (r : SQLiteAdapter.Row) : Prop :=
  (∀ p, f.name = some p → p ≠ "" → likeCI p r.name = true) ∧
  (∀ p, f.phone = some p → p ≠ "" → likeCI p r.phone = true) ∧
  (∀ p, f.email = some p → p ≠ "" → likeCI p r.email = true) ∧
  (∀ n, f.min_id = some n → n ≠ 0 → n ≤ r.id) ∧
  (∀ n, f.max_id = some n → n ≠ 0 → r.id ≤ n)

/-- Spec-side reading of C2 for a MySQL row. -/
def mysqlRowMatchesAll (f : Filters) (r : MySQLAdapter.Row) : Prop :=
  (∀ p, f.name = some p → p ≠ "" → valLikeCI p r.name = true) ∧
  (∀ p, f.phone = some p → p ≠ "" → valLikeCI p r.phone = true) ∧
  (∀ p, f.email = some p → p ≠ "" → valLikeCI p r.email = true) ∧
  (∀ n, f.min_id = some n → n ≠ 0 → n ≤ r.id) ∧
  (∀ n, f.max_id = some n → n ≠ 0 → r.id ≤ n)

/-- Spec-side reading of C2 for a MongoDB document. -/
def mongoDocMatchesAll (f : Filters) (d : MongoDBAdapter.Doc) : Prop :=
  (∀ p, f.name = some p → p ≠ "" → valLikeCI p (dictGet d "name") = true) ∧
  (∀ p, f.phone = some p → p ≠ "" → valLikeCI p (dictGet d "phone") = true) ∧
  (∀ p, f.email = some p → p ≠ "" → valLikeCI p (dictGet d "email") = true) ∧
  (∀ n, f.min_id = some n → n ≠ 0 → (Int.ofNat n) ≤ MongoDBAdapter.docId d) ∧
  (∀ n, f.max_id = some n → n ≠ 0 → MongoDBAdapter.docId d ≤ (Int.ofNat n))

/-- The record and filters of the C2 counterexample: one row with id 1
whose name contains the name filter, and a min_id bound of 5. -/
def c2Row : PostgreSQLAdapter.Row := ⟨1, Val.str "Alice", Val.str "", Val.str "", 0, 0, []⟩

/-- The C2 counterexample filters. -/
def c2Filters : Filters := ⟨some "a", none, none, some 5, none⟩

/-- C2 counterexample: the PostgreSQL adapter joins the predicates with
OR, so with filters name = "a" and min_id = 5 it returns the row with
id 1 (the name matches) even though the row violates the provided
min_id bound. -/
theorem advanced_search_or_counterexample :
    (PostgreSQLAdapter.advanced_search ⟨[c2Row], 2, []⟩ c2Filters).map
        PostgreSQLAdapter.Row.id = [1]
    ∧ ¬(5 ≤ c2Row.id) := by
  constructor <;> decide

/-- C2 amended: the SQLite, MySQL and MongoDB adapters combine the
provided predicates conjunctively — every returned record satisfies all
provided truthy filters — while the PostgreSQL adapter and the legacy
core ContactDatabase combine them disjunctively: a record is returned
exactly when it is stored and either no condition is active or at least
one active condition holds. -/
theorem advanced_search_semantics_amended :
    (∀ (s : SQLiteAdapter.State) (f : Filters) (r : SQLiteAdapter.Row),
      r ∈ SQLiteAdapter.advanced_search s f → sqliteRowMatchesAll f r)
    ∧ (∀ (s : MySQLAdapter.State) (f : Filters) (r : MySQLAdapter.Row),
      r ∈ MySQLAdapter.advanced_search s f → mysqlRowMatchesAll f r)
    ∧ (∀ (s : MongoDBAdapter.State) (f : Filters) (d : MongoDBAdapter.Doc),
      d ∈ MongoDBAdapter.advanced_search_docs s f → mongoDocMatchesAll f d)
    ∧ (∀ (s : PostgreSQLAdapter.State) (f : Filters) (r : PostgreSQLAdapter.Row),
      r ∈ PostgreSQLAdapter.advanced_search s f ↔
        r ∈ s.rows ∧ (PostgreSQLAdapter.searchConds f = [] ∨
          (PostgreSQLAdapter.searchConds f).any (fun c => c r) = true))
    ∧ (∀ (rows : List SQLiteAdapter.Row) (f : Filters) (r : SQLiteAdapter.Row),
      r ∈ ContactDatabase.advanced_search rows f ↔
        r ∈ rows ∧ (ContactDatabase.searchConds f = [] ∨
          (ContactDatabase.searchConds f).any (fun c => c r) = true)) := by
  refine ⟨?_, ?_, ?_, ?_, ?_⟩
  · intro s f r hr
    have hall : ∀ c ∈ SQLiteAdapter.searchConds f, c r = true := by
      by_cases hc : (SQLiteAdapter.searchConds f).isEmpty = true
      · intro c hcm
        rw [List.isEmpty_iff.mp hc] at hcm
        cases hcm
      · have hr' : r ∈ s.rows.filter
            (fun r => (SQLiteAdapter.searchConds f).all (fun c => c r)) := by
          simpa [SQLiteAdapter.advanced_search, hc] using hr
        exact fun c hcm => List.all_eq_true.mp (List.mem_filter.mp hr').2 c hcm
    have hall2 : ∀ c ∈ advConds f (fun p (r : SQLiteAdapter.Row) => likeCI p r.name)
        (fun p r => likeCI p r.phone) (fun p r => likeCI p r.email)
        (fun n r => decide (n ≤ r.id)) (fun n r => decide (r.id ≤ n)), c r = true := hall
    obtain ⟨h1, h2, h3, h4, h5⟩ :=
      advConds_all_imp f (fun p r => likeCI p r.name) (fun p r => likeCI p r.phone)
        (fun p r => likeCI p r.email) (fun n r => decide (n ≤ r.id))
        (fun n r => decide (r.id ≤ n)) r hall2
    exact ⟨h1, h2, h3, fun n hf hn => of_decide_eq_true (h4 n hf hn),
      fun n hf hn => of_decide_eq_true (h5 n hf hn)⟩
  · intro s f r hr
    have hall : ∀ c ∈ MySQLAdapter.searchConds f, c r = true := by
      by_cases hc : (MySQLAdapter.searchConds f).isEmpty = true
      · intro c hcm
        rw [List.isEmpty_iff.mp hc] at hcm
        cases hcm
      · have hcf : (MySQLAdapter.searchConds f).isEmpty = false := by simpa using hc
        have hr' : r ∈ s.rows.filter
            (fun r => (MySQLAdapter.searchConds f).all (fun c => c r)) := by
          simpa [MySQLAdapter.advanced_search, hcf] using hr
        exact fun c hcm => List.all_eq_true.mp (List.mem_filter.mp hr').2 c hcm
    have hall2 : ∀ c ∈ advConds f (fun p (r : MySQLAdapter.Row) => valLikeCI p r.name)
        (fun p r => valLikeCI p r.phone) (fun p r => valLikeCI p r.email)
        (fun n r => decide (n ≤ r.id)) (fun n r => decide (r.id ≤ n)), c r = true := hall
    obtain ⟨h1, h2, h3, h4, h5⟩ :=
      advConds_all_imp f (fun p r => valLikeCI p r.name) (fun p r => valLikeCI p r.phone)
        (fun p r => valLikeCI p r.email) (fun n r => decide (n ≤ r.id))
        (fun n r => decide (r.id ≤ n)) r hall2
    exact ⟨h1, h2, h3, fun n hf hn => of_decide_eq_true (h4 n hf hn),
      fun n hf hn => of_decide_eq_true (h5 n hf hn)⟩
  · intro s f d hd
    have hall : ∀ c ∈ MongoDBAdapter.searchConds f, c d = true := by
      have hd' : d ∈ s.docs.filter (MongoDBAdapter.advMatches f) := by
        simpa [MongoDBAdapter.advanced_search_docs] using hd
      have := (List.mem_filter.mp hd').2
      exact fun c hcm =>
        List.all_eq_true.mp (by simpa [MongoDBAdapter.advMatches] using this) c hcm
    have hall2 : ∀ c ∈ advConds f
        (fun p (d : MongoDBAdapter.Doc) => valLikeCI p (dictGet d "name"))
        (fun p d => valLikeCI p (dictGet d "phone"))
        (fun p d => valLikeCI p (dictGet d "email"))
        (fun n d => decide ((Int.ofNat n) ≤ MongoDBAdapter.docId d))
        (fun n d => decide (MongoDBAdapter.docId d ≤ (Int.ofNat n))), c d = true := hall
    obtain ⟨h1, h2, h3, h4, h5⟩ :=
      advConds_all_imp f (fun p d => valLikeCI p (dictGet d "name"))
        (fun p d => valLikeCI p (dictGet d "phone"))
        (fun p d => valLikeCI p (dictGet d "email"))
        (fun n d => decide ((Int.ofNat n) ≤ MongoDBAdapter.docId d))
        (fun n d => decide (MongoDBAdapter.docId d ≤ (Int.ofNat n))) d hall2
    exact ⟨h1, h2, h3, fun n hf hn => of_decide_eq_true (h4 n hf hn),
      fun n hf hn => of_decide_eq_true (h5 n hf hn)⟩
  · intro s f r
    by_cases hc : (PostgreSQLAdapter.searchConds f).isEmpty = true
    · have hnil := List.isEmpty_iff.mp hc
      simp [PostgreSQLAdapter.advanced_search, hc, hnil]
    · have hcf : (PostgreSQLAdapter.searchConds f).isEmpty = false := by simpa using hc
      have hnonnil : ¬ PostgreSQLAdapter.searchConds f = [] := by
        intro hnil
        rw [hnil] at hcf
        simp at hcf
      simp [PostgreSQLAdapter.advanced_search, hcf, List.mem_filter, hnonnil]
  · intro rows f r
    by_cases hc : (ContactDatabase.searchConds f).isEmpty = true
    · have hnil := List.isEmpty_iff.mp hc
      simp [ContactDatabase.advanced_search, hc, hnil]
    · have hcf : (ContactDatabase.searchConds f).isEmpty = false := by simpa using hc
      have hnonnil : ¬ ContactDatabase.searchConds f = [] := by
        intro hnil
        rw [hnil] at hcf
        simp at hcf
      simp [ContactDatabase.advanced_search, hcf, List.mem_filter, hnonnil]

/-- The witness state and filters of the C2 AND conjuncts. -/
def c2wRow : SQLiteAdapter.Row := ⟨3, "Ada Lovelace", "5551234", "ada@x.com"⟩

/-- Witness for C2 at concrete inputs: a returned SQLite record
satisfies all active filters, and the PostgreSQL OR equivalence holds on
the counterexample state. -/
theorem advanced_search_semantics_amended_witness :
    sqliteRowMatchesAll ⟨some "ada", none, none, some 2, none⟩ c2wRow
    ∧ (c2Row ∈ PostgreSQLAdapter.advanced_search ⟨[c2Row], 2, []⟩ c2Filters ↔
        c2Row ∈ [c2Row] ∧ (PostgreSQLAdapter.searchConds c2Filters = [] ∨
          (PostgreSQLAdapter.searchConds c2Filters).any (fun c => c c2Row) = true)) := by
  constructor
  · exact advanced_search_semantics_amended.1 ⟨[c2wRow], 3⟩
      ⟨some "ada", none, none, some 2, none⟩ c2wRow (by decide)
  · exact advanced_search_semantics_amended.2.2.2.1 ⟨[c2Row], 2, []⟩ c2Filters c2Row

/-! ## Claim C3: introspected column order -/

theorem sqlite_table_columns (extras : List String) :
    SchemaManager.get_table_columns (SQLiteAdapter.get_table_info extras) =
      ["id", "name", "phone", "email", "age", "address", "department", "category", "tags"]
        ++ extras := by
  have hex : ∀ (start : Nat) (cs : List String),
      (SQLiteAdapter.extraInfoRows start cs).filterMap SchemaManager.extractName = cs := by
    intro start cs
    induction cs generalizing start with
    | nil => rfl
    | cons c cs ih =>
      simp [SQLiteAdapter.extraInfoRows, SchemaManager.extractName, Cell.isInt,
        Cell.toStr, ih]
  unfold SchemaManager.get_table_columns SQLiteAdapter.get_table_info
  simp [List.filterMap_append, hex, SQLiteAdapter.baseTableInfo, SchemaManager.extractName,
    Cell.isInt, Cell.toStr]

theorem postgres_table_columns (extras : List String) :
    SchemaManager.get_table_columns (PostgreSQLAdapter.get_table_info extras) =
      SchemaManager.REQUIRED_COLUMNS ++ extras := by
  have hex : (extras.map (fun c => [Cell.s c, Cell.s "text", Cell.s "YES",
      Cell.null])).filterMap SchemaManager.extractName = extras := by
    induction extras with
    | nil => rfl
    | cons c cs ih => simp [SchemaManager.extractName, Cell.isInt, Cell.toStr, ih]
  unfold SchemaManager.get_table_columns PostgreSQLAdapter.get_table_info
  simp [List.filterMap_append, hex, SchemaManager.extractName, Cell.isInt, Cell.toStr,
    SchemaManager.REQUIRED_COLUMNS]

theorem mysql_table_columns (extras : List String) :
    SchemaManager.get_table_columns (MySQLAdapter.get_table_info extras) =
      ["id", "name", "phone", "email"] ++ extras := by
  have hex : (extras.map (fun c => [Cell.s c, Cell.s "text", Cell.s "YES", Cell.s "",
      Cell.null, Cell.s ""])).filterMap SchemaManager.extractName = extras := by
    induction extras with
    | nil => rfl
    | cons c cs ih => simp [SchemaManager.extractName, Cell.isInt, Cell.toStr, ih]
  unfold SchemaManager.get_table_columns MySQLAdapter.get_table_info
  simp [List.filterMap_append, hex, SchemaManager.extractName, Cell.isInt, Cell.toStr]

theorem not_mem_discoveredKeys (sample : Option MongoDBAdapter.Doc) (k : String)
    (hk : (MongoDBAdapter.reservedKeys.contains k) = true) :
    k ∉ MongoDBAdapter.discoveredKeys sample := by
  intro hmem
  cases sample with
  | none => cases hmem
  | some d =>
    unfold MongoDBAdapter.discoveredKeys at hmem
    have hfl := (List.mem_filter.mp hmem).2
    rw [hk] at hfl
    simp at hfl

theorem mongo_table_columns (sample : Option MongoDBAdapter.Doc) :
    SchemaManager.get_table_columns (MongoDBAdapter.get_table_info sample) =
      ["id", "name", "phone", "email"] ++ MongoDBAdapter.discoveredKeys sample := by
  have hex : ((MongoDBAdapter.discoveredKeys sample).map
      (fun k => [Cell.s k, Cell.s "String", Cell.s "YES", Cell.null])).filterMap
        SchemaManager.extractName = MongoDBAdapter.discoveredKeys sample := by
    induction MongoDBAdapter.discoveredKeys sample with
    | nil => rfl
    | cons c cs ih => simp [SchemaManager.extractName, Cell.isInt, Cell.toStr, ih]
  unfold SchemaManager.get_table_columns MongoDBAdapter.get_table_info
  simp [List.filterMap_append, hex, SchemaManager.extractName, Cell.isInt, Cell.toStr]

/-- C3 counterexample: the MongoDB introspection of a fresh collection
hides the timestamp columns, so get_table_columns does not include all
six required columns (created_at is missing). -/
theorem schema_columns_counterexample :
    "created_at" ∉
      SchemaManager.get_table_columns (MongoDBAdapter.get_table_info none) := by
  decide

/-- C3 amended: get_table_columns lists id first for every backend
introspection shape — the SQLite PRAGMA, MySQL DESCRIBE and PostgreSQL
information_schema results with any appended added columns, and the
MongoDB introspection with any sample document; only the PostgreSQL
schema reports all six required columns — the base legacy SQLite and
MySQL schemas lack created_at/updated_at and the MongoDB introspection
hides them for every sample document; and on any duplicate-free column
list get_display_columns returns the same columns (a permutation) with
the non-timestamp columns first in their original relative order and
only timestamp columns after them. -/
theorem schema_columns_amended :
    (∀ extras, (SchemaManager.get_table_columns
        (SQLiteAdapter.get_table_info extras)).head? = some "id")
    ∧ (∀ extras, (SchemaManager.get_table_columns
        (PostgreSQLAdapter.get_table_info extras)).head? = some "id"
        ∧ ∀ c ∈ SchemaManager.REQUIRED_COLUMNS,
            c ∈ SchemaManager.get_table_columns (PostgreSQLAdapter.get_table_info extras))
    ∧ (∀ extras, (SchemaManager.get_table_columns
        (MySQLAdapter.get_table_info extras)).head? = some "id")
    ∧ (∀ sample, (SchemaManager.get_table_columns
        (MongoDBAdapter.get_table_info sample)).head? = some "id")
    ∧ (∀ sample, "created_at" ∉ SchemaManager.get_table_columns
          (MongoDBAdapter.get_table_info sample)
        ∧ "updated_at" ∉ SchemaManager.get_table_columns
          (MongoDBAdapter.get_table_info sample))
    ∧ ("created_at" ∉ SchemaManager.get_table_columns (SQLiteAdapter.get_table_info [])
        ∧ "updated_at" ∉ SchemaManager.get_table_columns (SQLiteAdapter.get_table_info [])
        ∧ "created_at" ∉ SchemaManager.get_table_columns (MySQLAdapter.get_table_info [])
        ∧ "updated_at" ∉ SchemaManager.get_table_columns (MySQLAdapter.get_table_info []))
    ∧ (∀ columns : List String, columns.Nodup →
        List.Perm (SchemaManager.display_columns columns) columns)
    ∧ (∀ columns : List String,
        (SchemaManager.display_columns columns).filter
            (fun c => !(SchemaManager.timestampCols.contains c)) =
          columns.filter (fun c => !(SchemaManager.timestampCols.contains c)))
    ∧ (∀ columns : List String, ∀ c ∈ (SchemaManager.display_columns columns).drop
          ((columns.filter (fun c => !(SchemaManager.timestampCols.contains c))).length),
        c ∈ SchemaManager.timestampCols) := by
  refine ⟨?_, ?_, ?_, ?_, ?_, ?_, ?_, ?_, ?_⟩
  · intro extras
    rw [sqlite_table_columns]
    rfl
  · intro extras
    rw [postgres_table_columns]
    exact ⟨rfl, fun c hc => List.mem_append_left _ hc⟩
  · intro extras
    rw [mysql_table_columns]
    rfl
  · intro sample
    rw [mongo_table_columns]
    rfl
  · intro sample
    rw [mongo_table_columns]
    constructor
    · intro hmem
      rcases List.mem_append.mp hmem with h1 | h1
      · exact absurd h1 (by decide)
      · exact not_mem_discoveredKeys sample "created_at" (by decide) h1
    · intro hmem
      rcases List.mem_append.mp hmem with h1 | h1
      · exact absurd h1 (by decide)
      · exact not_mem_discoveredKeys sample "updated_at" (by decide) h1
  · refine ⟨?_, ?_, ?_, ?_⟩ <;> decide
  · intro columns hnd
    unfold SchemaManager.display_columns
    have h3 : List.Perm
        (SchemaManager.timestampCols.filter (fun c => columns.contains c))
        (columns.filter (fun c => SchemaManager.timestampCols.contains c)) := by
      refine (List.perm_ext_iff_of_nodup ?_ ?_).mpr ?_
      · exact (by decide : SchemaManager.timestampCols.Nodup).filter _
      · exact hnd.filter _
      · intro a
        simp only [List.mem_filter, List.contains, List.elem_eq_mem, decide_eq_true_eq]
        exact and_comm
    have h1 := List.filter_append_perm
      (fun c => !(SchemaManager.timestampCols.contains c)) columns
    have h2 : (columns.filter (fun c =>
        !(!(SchemaManager.timestampCols.contains c)))) =
        columns.filter (fun c => SchemaManager.timestampCols.contains c) := by
      simp
    refine List.Perm.trans (List.Perm.append_left _ h3) ?_
    rw [← h2]
    exact h1
  · intro columns
    unfold SchemaManager.display_columns
    rw [List.filter_append]
    have hA : (columns.filter (fun c => !(SchemaManager.timestampCols.contains c))).filter
        (fun c => !(SchemaManager.timestampCols.contains c)) =
        columns.filter (fun c => !(SchemaManager.timestampCols.contains c)) := by
      rw [List.filter_filter]
      simp
    have hB : (SchemaManager.timestampCols.filter (fun c => columns.contains c)).filter
        (fun c => !(SchemaManager.timestampCols.contains c)) = [] := by
      rw [List.filter_eq_nil_iff]
      intro a ha
      have : a ∈ SchemaManager.timestampCols := (List.mem_filter.mp ha).1
      simp [List.contains, List.elem_eq_mem, this]
    rw [hA, hB, List.append_nil]
  · intro columns c hc
    unfold SchemaManager.display_columns at hc
    rw [List.drop_left] at hc
    exact (List.mem_filter.mp hc).1

/-- Witness for C3 at concrete inputs: an added column on each SQL
backend, a sample document with a user field on MongoDB (including the
timestamp omission there), and a concrete display reordering. -/
theorem schema_columns_amended_witness :
    (SchemaManager.get_table_columns (SQLiteAdapter.get_table_info ["nick"])).head? =
      some "id"
    ∧ (SchemaManager.get_table_columns (PostgreSQLAdapter.get_table_info ["nick"])).head? =
      some "id"
    ∧ (SchemaManager.get_table_columns (MySQLAdapter.get_table_info ["nick"])).head? =
      some "id"
    ∧ (SchemaManager.get_table_columns (MongoDBAdapter.get_table_info
        (some [("id", Val.int 1), ("nick", Val.str "ada")]))).head? = some "id"
    ∧ "created_at" ∉ SchemaManager.get_table_columns (MongoDBAdapter.get_table_info
        (some [("id", Val.int 1), ("nick", Val.str "ada")]))
    ∧ List.Perm (SchemaManager.display_columns
        ["id", "created_at", "name", "updated_at", "x"])
        ["id", "created_at", "name", "updated_at", "x"] := by
  refine ⟨?_, ?_, ?_, ?_, ?_, ?_⟩
  · exact schema_columns_amended.1 ["nick"]
  · exact (schema_columns_amended.2.1 ["nick"]).1
  · exact schema_columns_amended.2.2.1 ["nick"]
  · exact schema_columns_amended.2.2.2.1 (some [("id", Val.int 1), ("nick", Val.str "ada")])
  · exact (schema_columns_amended.2.2.2.2.1
      (some [("id", Val.int 1), ("nick", Val.str "ada")])).1
  · exact schema_columns_amended.2.2.2.2.2.2.1
      ["id", "created_at", "name", "updated_at", "x"] (by decide)

/-! ## Claim C4: switch_database safety -/

/-- C4: switch_database (a total function: every exception from
construction or the probe is caught) returns false and leaves the
state — adapter, backend identifier, persisted records — unchanged
whenever create_with_test fails, and the new adapter is installed,
with the identifier and persisted records, exactly when construction
succeeded and its connection test returned true. -/
theorem switch_database_safe :
    ∀ (construct : String → Except String DatabaseFactory.Adapter)
      (s : DatabaseManager.State) (t : String),
      (∀ e, DatabaseFactory.create_with_test construct t = .error e →
        DatabaseManager.switch_database construct s t = (s, false))
      ∧ (∀ a, DatabaseFactory.create_with_test construct t = .ok a →
          DatabaseManager.switch_database construct s t =
            (⟨some a, t, t, some t⟩, true))
      ∧ ((DatabaseManager.switch_database construct s t).2 = true →
          ∃ a, DatabaseFactory.create_adapter construct t = .ok a ∧ a.testOk = true ∧
            (DatabaseManager.switch_database construct s t).1.current_adapter = some a)
      ∧ ((DatabaseManager.switch_database construct s t).2 = false →
          (DatabaseManager.switch_database construct s t).1 = s) := by
  intro construct s t
  refine ⟨?_, ?_, ?_, ?_⟩
  · intro e he
    simp [DatabaseManager.switch_database, he]
  · intro a ha
    simp [DatabaseManager.switch_database, ha]
  · intro hb
    cases hca : DatabaseFactory.create_adapter construct t with
    | error e =>
      have hct : DatabaseFactory.create_with_test construct t = .error e := by
        unfold DatabaseFactory.create_with_test
        rw [hca]
      simp [DatabaseManager.switch_database, hct] at hb
    | ok b =>
      by_cases htb : b.testOk = true
      · have hct : DatabaseFactory.create_with_test construct t = .ok b := by
          unfold DatabaseFactory.create_with_test
          rw [hca]
          simp [htb]
        exact ⟨b, rfl, htb, by simp [DatabaseManager.switch_database, hct]⟩
      · have hct : DatabaseFactory.create_with_test construct t =
            .error ("Failed to connect to " ++ t ++ " database") := by
          unfold DatabaseFactory.create_with_test
          rw [hca]
          simp [htb]
        simp [DatabaseManager.switch_database, hct] at hb
  · intro hb
    cases hct : DatabaseFactory.create_with_test construct t with
    | error e => simp [DatabaseManager.switch_database, hct]
    | ok a => simp [DatabaseManager.switch_database, hct] at hb

/-- A constructor for the C4 witness: every supported backend builds an
adapter whose probe succeeds except mysql, whose probe fails. -/
def witnessConstruct : String → Except String DatabaseFactory.Adapter :=
  fun t => if t = "mysql" then .ok ⟨t, false⟩ else .ok ⟨t, true⟩

/-- An initial manager state for the C4 witness. -/
def managerSeed : DatabaseManager.State := ⟨none, "sqlite", "sqlite", none⟩

/-- Witness for C4 at concrete inputs: a failing probe (mysql) leaves
the state unchanged with result false, an unsupported type leaves it
unchanged, and a successful probe installs the tested adapter. -/
theorem switch_database_safe_witness :
    DatabaseManager.switch_database witnessConstruct managerSeed "mysql" =
      (managerSeed, false)
    ∧ DatabaseManager.switch_database witnessConstruct managerSeed "oracle" =
      (managerSeed, false)
    ∧ DatabaseManager.switch_database witnessConstruct managerSeed "postgres" =
      (⟨some ⟨"postgres", true⟩, "postgres", "postgres", some "postgres"⟩, true) := by
  refine ⟨?_, ?_, ?_⟩
  · exact (switch_database_safe witnessConstruct managerSeed "mysql").1
      "Failed to connect to mysql database" (by rfl)
  · exact (switch_database_safe witnessConstruct managerSeed "oracle").1
      "Unsupported database type: oracle" (by rfl)
  · exact (switch_database_safe witnessConstruct managerSeed "postgres").2.1
      ⟨"postgres", true⟩ (by rfl)

/-! ## Claim C5: backend-managed timestamps -/

/-- C5 counterexample: the MongoDB adapter builds the new document with
backend timestamps and then applies the client fields on top, so a
client-supplied created_at of 5 is persisted although the backend time
is 100. -/
theorem client_timestamp_stored_counterexample :
    (match MongoDBAdapter.add_contact 100 MongoDBAdapter.create_table
        [("name", Val.str "Ada"), ("created_at", Val.time 5)] with
      | .ok st => st.docs.map (fun d => dictGet d "created_at")
      | .error _ => []) = [Val.time 5]
    ∧ Val.time 5 ≠ Val.time 100 := by
  constructor <;> decide


/-! ### Dictionary update lemmas -/

theorem dictGet?_some_imp {d : PyDict} {k : String} {v : Val}
    (h : dictGet? d k = some v) : dictGet d k = v := by
  induction d with
  | nil => cases h
  | cons q qs ih =>
    by_cases hq : (q.1 == k) = true
    · simp only [dictGet?, hq, reduceIte, Option.some.injEq] at h
      simp [dictGet, hq, h]
    · simp only [dictGet?, hq, Bool.false_eq_true, reduceIte] at h
      simp only [dictGet, hq, Bool.false_eq_true, reduceIte]
      exact ih h

theorem dictGet_append_skip {d1 d2 : PyDict} {k : String}
    (h : k ∉ d1.map Prod.fst) : dictGet (d1 ++ d2) k = dictGet d2 k := by
  induction d1 with
  | nil => rfl
  | cons q qs ih =>
    simp only [List.map_cons, List.mem_cons] at h
    push_neg at h
    have hq : (q.1 == k) = false := by
      simp [beq_iff_eq]
      intro hh
      exact h.1 hh.symm
    simp only [List.cons_append, dictGet, hq, Bool.false_eq_true, reduceIte]
    exact ih h.2

theorem dictGet?_append_skip {d1 d2 : PyDict} {k : String}
    (h : k ∉ d1.map Prod.fst) : dictGet? (d1 ++ d2) k = dictGet? d2 k := by
  induction d1 with
  | nil => rfl
  | cons q qs ih =>
    simp only [List.map_cons, List.mem_cons] at h
    push_neg at h
    have hq : (q.1 == k) = false := by
      simp [beq_iff_eq]
      intro hh
      exact h.1 hh.symm
    simp only [List.cons_append, dictGet?, hq, Bool.false_eq_true, reduceIte]
    exact ih h.2

theorem dictGet_mapped_of_mem {fs : PyDict} {k : String} {v : Val}
    (h : dictGet? fs k = some v) :
    ∀ (base rest : PyDict), k ∈ base.map Prod.fst →
      dictGet (base.map (fun kv => (kv.1, (dictGet? fs kv.1).getD kv.2)) ++ rest) k = v := by
  intro base
  induction base with
  | nil => intro rest hk; simp at hk
  | cons b bs ih =>
    intro rest hk
    by_cases hb : (b.1 == k) = true
    · have hbe : b.1 = k := by simpa [beq_iff_eq] using hb
      simp only [List.map_cons, List.cons_append, dictGet, hb, reduceIte]
      rw [hbe, h]
      rfl
    · simp only [List.map_cons, List.cons_append, dictGet, hb, Bool.false_eq_true, reduceIte]
      have hk' : k ∈ bs.map Prod.fst := by
        simp only [List.map_cons, List.mem_cons] at hk
        rcases hk with h1 | h1
        · exact absurd (by simpa [beq_iff_eq, h1] : (b.1 == k) = true) (by simp [hb])
        · exact h1
      exact ih rest hk'

theorem mapped_keys (base : PyDict) (g : String × Val → Val) :
    (base.map (fun kv => (kv.1, g kv))).map Prod.fst = base.map Prod.fst := by
  rw [List.map_map]
  rfl

/-- A key present in the client fields survives dict.update: the stored
value at that key is the client value, whether the key already existed
in the base dictionary or is appended. -/
theorem dictGet_dictUpdate_of_some {base fs : PyDict} {k : String} {v : Val}
    (h : dictGet? fs k = some v) : dictGet (dictUpdate base fs) k = v := by
  by_cases hk : k ∈ base.map Prod.fst
  · exact dictGet_mapped_of_mem h base _ hk
  · have hnone : (base.any (fun b => b.1 == k)) = false := by
      cases hx : base.any (fun b => b.1 == k)
      · rfl
      · exfalso
        obtain ⟨b, hbmem, hbe⟩ := List.any_eq_true.mp hx
        exact hk (List.mem_map.mpr ⟨b, hbmem, by simpa [beq_iff_eq] using hbe⟩)
    have hskip : dictGet (dictUpdate base fs) k =
        dictGet (fs.filter (fun kv => !(base.any (fun b => b.1 == kv.1)))) k := by
      unfold dictUpdate
      refine dictGet_append_skip ?_
      rw [mapped_keys base (fun kv => (dictGet? fs kv.1).getD kv.2)]
      exact hk
    rw [hskip]
    apply dictGet?_some_imp
    clear hskip hk
    induction fs with
    | nil => cases h
    | cons q qs ih =>
      by_cases hq : (q.1 == k) = true
      · have hqe : q.1 = k := by simpa [beq_iff_eq] using hq
        simp only [dictGet?, hq, reduceIte, Option.some.injEq] at h
        have hpass : (!(base.any (fun b => b.1 == q.1))) = true := by
          rw [hqe, hnone]
          rfl
        simp [List.filter, hpass, dictGet?, hq, h]
      · simp only [dictGet?, hq, Bool.false_eq_true, reduceIte] at h
        cases hpq : (!(base.any (fun b => b.1 == q.1)))
        · simp only [List.filter_cons, hpq, Bool.false_eq_true, reduceIte]
          exact ih h
        · simp only [List.filter_cons, hpq, reduceIte, dictGet?, hq, Bool.false_eq_true]
          exact ih h

theorem dictGet?_mapped_of_mem {fs : PyDict} {k : String} {v : Val}
    (h : dictGet? fs k = some v) :
    ∀ (base rest : PyDict), k ∈ base.map Prod.fst →
      dictGet? (base.map (fun kv => (kv.1, (dictGet? fs kv.1).getD kv.2)) ++ rest) k =
        some v := by
  intro base
  induction base with
  | nil => intro rest hk; simp at hk
  | cons b bs ih =>
    intro rest hk
    by_cases hb : (b.1 == k) = true
    · have hbe : b.1 = k := by simpa [beq_iff_eq] using hb
      simp only [List.map_cons, List.cons_append, dictGet?, hb, reduceIte]
      rw [hbe, h]
      rfl
    · simp only [List.map_cons, List.cons_append, dictGet?, hb, Bool.false_eq_true,
        reduceIte]
      have hk' : k ∈ bs.map Prod.fst := by
        simp only [List.map_cons, List.mem_cons] at hk
        rcases hk with h1 | h1
        · exact absurd (by simpa [beq_iff_eq, h1] : (b.1 == k) = true) (by simp [hb])
        · exact h1
      exact ih rest hk'

/-- dict assignment d[k] = v as done through dict.update with a single
pair: reading k afterwards gives v. -/
theorem dictGet?_dictUpdate_single (fs : PyDict) (k : String) (v : Val) :
    dictGet? (dictUpdate fs [(k, v)]) k = some v := by
  by_cases hk : k ∈ fs.map Prod.fst
  · exact dictGet?_mapped_of_mem (by simp [dictGet?]) fs _ hk
  · have hnone : (fs.any (fun b => b.1 == k)) = false := by
      cases hx : fs.any (fun b => b.1 == k)
      · rfl
      · exfalso
        obtain ⟨b, hbmem, hbe⟩ := List.any_eq_true.mp hx
        exact hk (List.mem_map.mpr ⟨b, hbmem, by simpa [beq_iff_eq] using hbe⟩)
    have hskip : dictGet? (dictUpdate fs [(k, v)]) k =
        dictGet? ([(k, v)].filter (fun kv => !(fs.any (fun b => b.1 == kv.1)))) k := by
      unfold dictUpdate
      refine dictGet?_append_skip ?_
      rw [mapped_keys fs (fun kv => (dictGet? [(k, v)] kv.1).getD kv.2)]
      exact hk
    rw [hskip]
    simp [List.filter, hnone, dictGet?]

theorem mem_keys_dictGet? {d : PyDict} {k : String}
    (h : k ∈ d.map Prod.fst) : dictGet? d k = some (dictGet d k) := by
  induction d with
  | nil => simp at h
  | cons q qs ih =>
    by_cases hq : (q.1 == k) = true
    · simp [dictGet?, dictGet, hq]
    · simp only [List.map_cons, List.mem_cons] at h
      rcases h with h1 | h1
      · exact absurd (by simpa [beq_iff_eq, h1] : (q.1 == k) = true) (by simp [hq])
      · simp only [dictGet?, dictGet, hq, Bool.false_eq_true, reduceIte]
        exact ih h1

theorem dictGet?_eq_none_of_not_mem {d : PyDict} {k : String}
    (h : k ∉ d.map Prod.fst) : dictGet? d k = none := by
  induction d with
  | nil => rfl
  | cons q qs ih =>
    simp only [List.map_cons, List.mem_cons] at h
    push_neg at h
    have hq : (q.1 == k) = false := by
      simp [beq_iff_eq]
      intro hh
      exact h.1 hh.symm
    simp only [dictGet?, hq, Bool.false_eq_true, reduceIte]
    exact ih h.2

theorem dictGet?_mapped_get (fs : PyDict) {k : String} :
    ∀ (base rest : PyDict), k ∈ base.map Prod.fst →
      dictGet? (base.map (fun kv => (kv.1, (dictGet? fs kv.1).getD kv.2)) ++ rest) k =
        some ((dictGet? fs k).getD (dictGet base k)) := by
  intro base
  induction base with
  | nil => intro rest hk; simp at hk
  | cons b bs ih =>
    intro rest hk
    by_cases hb : (b.1 == k) = true
    · have hbe : b.1 = k := by simpa [beq_iff_eq] using hb
      simp only [List.map_cons, List.cons_append, dictGet?, dictGet, hb, reduceIte]
      rw [hbe]
    · simp only [List.map_cons, List.cons_append, dictGet?, dictGet, hb,
        Bool.false_eq_true, reduceIte]
      have hk2 : k ∈ bs.map Prod.fst := by
        simp only [List.map_cons, List.mem_cons] at hk
        rcases hk with h1 | h1
        · exact absurd (by simpa [beq_iff_eq, h1] : (b.1 == k) = true) (by simp [hb])
        · exact h1
      exact ih rest hk2

/-- dict.update with a single fresh pair leaves every other key at its
previous value. -/
theorem dictGet?_dictUpdate_preserve (fs : PyDict) (k k2 : String) (v2 : Val)
    (hne : (k2 == k) = false) :
    dictGet? (dictUpdate fs [(k2, v2)]) k = dictGet? fs k := by
  by_cases hk : k ∈ fs.map Prod.fst
  · have h1 : dictGet? (dictUpdate fs [(k2, v2)]) k =
        some ((dictGet? [(k2, v2)] k).getD (dictGet fs k)) := by
      unfold dictUpdate
      exact dictGet?_mapped_get [(k2, v2)] fs _ hk
    rw [h1, mem_keys_dictGet? hk]
    simp [dictGet?, hne]
  · have hskip2 : dictGet? (dictUpdate fs [(k2, v2)]) k =
        dictGet? ([(k2, v2)].filter (fun kv => !(fs.any (fun b => b.1 == kv.1)))) k := by
      unfold dictUpdate
      refine dictGet?_append_skip ?_
      rw [mapped_keys fs (fun kv => (dictGet? [(k2, v2)] kv.1).getD kv.2)]
      exact hk
    rw [hskip2, dictGet?_eq_none_of_not_mem hk]
    cases hp : (!(fs.any (fun b => b.1 == k2)))
    · simp [List.filter, hp, dictGet?]
    · simp [List.filter, hp, dictGet?, hne]

theorem setRowField_created_at (r : PostgreSQLAdapter.Row) (k : String) (v : Val) :
    (PostgreSQLAdapter.setRowField r k v).created_at = r.created_at := by
  unfold PostgreSQLAdapter.setRowField
  split
  · rfl
  split
  · rfl
  split
  · rfl
  · rfl

theorem applyFields_created_at (fs : PyDict) :
    ∀ r : PostgreSQLAdapter.Row,
      (PostgreSQLAdapter.applyFields r fs).created_at = r.created_at := by
  induction fs with
  | nil => intro r; rfl
  | cons q qs ih =>
    intro r
    unfold PostgreSQLAdapter.applyFields at ih ⊢
    rw [List.foldl_cons, ih]
    exact setRowField_created_at r q.1 q.2

theorem mem_updateFirst {cid : Int} {fs : PyDict} :
    ∀ {docs : List MongoDBAdapter.Doc} {d : MongoDBAdapter.Doc},
      d ∈ MongoDBAdapter.updateFirst cid fs docs →
      d ∈ docs ∨ ∃ d0, d = dictUpdate d0 fs := by
  intro docs
  induction docs with
  | nil => intro d hd; cases hd
  | cons q qs ih =>
    intro d hd
    unfold MongoDBAdapter.updateFirst at hd
    split at hd
    · rcases List.mem_cons.mp hd with h1 | h1
      · exact Or.inr ⟨q, h1⟩
      · exact Or.inl (List.mem_cons_of_mem _ h1)
    · rcases List.mem_cons.mp hd with h1 | h1
      · exact Or.inl (h1 ▸ List.mem_cons_self _ _)
      · rcases ih h1 with h2 | h2
        · exact Or.inl (List.mem_cons_of_mem _ h2)
        · exact Or.inr h2

/-- C5 amended: the PostgreSQL adapter always persists backend-derived
timestamps — an insert stamps both timestamps with the backend time for
any client fields, and an update never changes any stored creation
timestamp; the MongoDB adapter stamps updated_at with the backend time
on every updated document (a client updated_at is overwritten), but it
does store a client-supplied created_at: on insert, and on update of an
existing record, the client value is persisted. -/
theorem timestamps_amended :
    (∀ (now : Nat) (s : PostgreSQLAdapter.State) (fields : PyDict)
        (st : PostgreSQLAdapter.State),
      PostgreSQLAdapter.add_contact now s fields = .ok st →
      ∃ r, st.rows = s.rows ++ [r]
        ∧ PostgreSQLAdapter.Row.created_at r = now
        ∧ PostgreSQLAdapter.Row.updated_at r = now)
    ∧ (∀ (now : Nat) (s : PostgreSQLAdapter.State) (cid : Nat) (fields : PyDict)
        (st : PostgreSQLAdapter.State),
      PostgreSQLAdapter.update_contact now s cid fields = .ok st →
      st.rows.map PostgreSQLAdapter.Row.created_at =
        s.rows.map PostgreSQLAdapter.Row.created_at)
    ∧ (∀ (now : Nat) (s : MongoDBAdapter.State) (cid : Int) (fields : PyDict)
        (st : MongoDBAdapter.State),
      MongoDBAdapter.update_contact now s cid fields = .ok st →
      ∀ d ∈ st.docs, d ∈ s.docs ∨ dictGet d "updated_at" = Val.time now)
    ∧ (∀ (now : Nat) (s : MongoDBAdapter.State) (fields : PyDict)
        (st : MongoDBAdapter.State) (v : Val),
      dictGet? fields "created_at" = some v →
      MongoDBAdapter.add_contact now s fields = .ok st →
      ∃ d, st.docs = s.docs ++ [d] ∧ dictGet d "created_at" = v)
    ∧ (∀ (now : Nat) (s : MongoDBAdapter.State) (cid : Int) (fields : PyDict)
        (st : MongoDBAdapter.State) (v : Val),
      dictGet? fields "created_at" = some v →
      MongoDBAdapter.update_contact now s cid fields = .ok st →
      ∀ d ∈ st.docs, d ∈ s.docs ∨ dictGet d "created_at" = v) := by
  refine ⟨?_, ?_, ?_, ?_, ?_⟩
  · intro now s fields st h
    by_cases hname : (fields.any fun kv => kv.1 == "name") = true
    · by_cases hins : (PostgreSQLAdapter.timestampFreeFields s fields).isEmpty = true
      · simp [PostgreSQLAdapter.add_contact, hname, hins] at h
      · simp [PostgreSQLAdapter.add_contact, hname, hins] at h
        rw [← h]
        exact ⟨_, rfl, rfl, rfl⟩
    · simp [PostgreSQLAdapter.add_contact, hname] at h
  · intro now s cid fields st h
    by_cases hemp : fields.isEmpty = true
    · simp [PostgreSQLAdapter.update_contact, hemp] at h
    · by_cases hupd : (PostgreSQLAdapter.timestampFreeFields s fields).isEmpty = true
      · simp [PostgreSQLAdapter.update_contact, hemp, hupd] at h
      · simp [PostgreSQLAdapter.update_contact, hemp, hupd] at h
        rw [← h]
        simp only [List.map_map]
        refine List.map_congr_left ?_
        intro r _
        by_cases hid : r.id = cid
        · simp [Function.comp, hid, applyFields_created_at]
        · simp [Function.comp, hid]
  · intro now s cid fields st h d hd
    by_cases hemp : fields.isEmpty = true
    · simp [MongoDBAdapter.update_contact, hemp] at h
    · simp [MongoDBAdapter.update_contact, hemp] at h
      rw [← h] at hd
      rcases mem_updateFirst hd with h1 | ⟨d0, h2⟩
      · exact Or.inl h1
      · refine Or.inr ?_
        rw [h2]
        exact dictGet_dictUpdate_of_some
          (dictGet?_dictUpdate_single fields "updated_at" (Val.time now))
  · intro now s fields st v hv h
    by_cases hname : (fields.any fun kv => kv.1 == "name") = true
    · simp [MongoDBAdapter.add_contact, hname] at h
      rw [← h]
      exact ⟨_, rfl, dictGet_dictUpdate_of_some hv⟩
    · simp [MongoDBAdapter.add_contact, hname] at h
  · intro now s cid fields st v hv h d hd
    have hemp : fields.isEmpty = false := by
      cases fields
      · cases hv
      · rfl
    simp [MongoDBAdapter.update_contact, hemp] at h
    rw [← h] at hd
    rcases mem_updateFirst hd with h1 | ⟨d0, h2⟩
    · exact Or.inl h1
    · refine Or.inr ?_
      rw [h2]
      apply dictGet_dictUpdate_of_some
      rw [dictGet?_dictUpdate_preserve fields "created_at" "updated_at" (Val.time now)
        (by decide)]
      exact hv

/-- Witness for C5 at concrete inputs: a PostgreSQL insert with a
client created_at stores the backend time; a PostgreSQL update keeps
the stored creation timestamps; a MongoDB update overwrites a client
updated_at with the backend time; a MongoDB insert persists the client
created_at. -/
theorem timestamps_amended_witness :
    (∃ r, ([⟨1, Val.str "A", Val.null, Val.null, 7, 7, []⟩] :
        List PostgreSQLAdapter.Row) = [] ++ [r]
      ∧ PostgreSQLAdapter.Row.created_at r = 7
      ∧ PostgreSQLAdapter.Row.updated_at r = 7)
    ∧ ([⟨1, Val.str "B", Val.null, Val.null, 3, 9, []⟩] :
        List PostgreSQLAdapter.Row).map PostgreSQLAdapter.Row.created_at =
      ([⟨1, Val.str "A", Val.null, Val.null, 3, 3, []⟩] :
        List PostgreSQLAdapter.Row).map PostgreSQLAdapter.Row.created_at
    ∧ (∀ d ∈ ([[("id", Val.int 1), ("created_at", Val.time 2), ("updated_at", Val.time 9),
          ("name", Val.str "A")]] : List MongoDBAdapter.Doc),
        d ∈ ([[("id", Val.int 1), ("created_at", Val.time 2), ("updated_at", Val.time 2),
          ("name", Val.str "A")]] : List MongoDBAdapter.Doc)
        ∨ dictGet d "updated_at" = Val.time 9)
    ∧ (∃ d, ([[("id", Val.int 1), ("created_at", Val.time 5), ("updated_at", Val.time 100),
          ("name", Val.str "Ada")]] : List MongoDBAdapter.Doc) = [] ++ [d]
        ∧ dictGet d "created_at" = Val.time 5)
    ∧ (∀ d ∈ ([[("id", Val.int 1), ("created_at", Val.time 42), ("updated_at", Val.time 9),
          ("name", Val.str "A")]] : List MongoDBAdapter.Doc),
        d ∈ ([[("id", Val.int 1), ("created_at", Val.time 2), ("updated_at", Val.time 2),
          ("name", Val.str "A")]] : List MongoDBAdapter.Doc)
        ∨ dictGet d "created_at" = Val.time 42) := by
  refine ⟨?_, ?_, ?_, ?_, ?_⟩
  · exact timestamps_amended.1 7 ⟨[], 1, []⟩
      [("name", Val.str "A"), ("created_at", Val.time 99)] _ (by rfl)
  · exact timestamps_amended.2.1 9 ⟨[⟨1, Val.str "A", Val.null, Val.null, 3, 3, []⟩], 2, []⟩
      1 [("name", Val.str "B"), ("created_at", Val.time 55)] _ (by rfl)
  · exact timestamps_amended.2.2.1 9
      ⟨[[("id", Val.int 1), ("created_at", Val.time 2), ("updated_at", Val.time 2),
        ("name", Val.str "A")]], 1⟩ 1 [("updated_at", Val.time 77)] _ (by rfl)
  · exact timestamps_amended.2.2.2.1 100 ⟨[], 0⟩
      [("name", Val.str "Ada"), ("created_at", Val.time 5)] _ (Val.time 5) (by rfl) (by rfl)
  · have hupd : MongoDBAdapter.update_contact 9
        ⟨[[("id", Val.int 1), ("created_at", Val.time 2), ("updated_at", Val.time 2),
          ("name", Val.str "A")]], 1⟩ 1 [("created_at", Val.time 42)] =
        .ok ⟨[[("id", Val.int 1), ("created_at", Val.time 42), ("updated_at", Val.time 9),
          ("name", Val.str "A")]], 1⟩ := by rfl
    exact timestamps_amended.2.2.2.2 9
      ⟨[[("id", Val.int 1), ("created_at", Val.time 2), ("updated_at", Val.time 2),
        ("name", Val.str "A")]], 1⟩ 1 [("created_at", Val.time 42)] _ (Val.time 42)
      (by rfl) hupd

/-! ## Claim C6: view_contacts ordering

For the legacy SQLite adapter SELECT * carries no ORDER BY: the scan
returns rows in rowid order.  The reachable states of the modelled
operations keep the rows sorted by id (AUTOINCREMENT never reuses an
id), so the scan is id-ascending on every reachable state.  The other
three adapters sort by id explicitly. -/

/-- The states reachable through the modelled legacy SQLite adapter
operations, starting from a fresh table. -/
inductive SQLiteReachable : SQLiteAdapter.State → Prop where
  | create : SQLiteReachable SQLiteAdapter.create_table
  | add (s : SQLiteAdapter.State) (n p e : String) :
      SQLiteReachable s → SQLiteReachable (SQLiteAdapter.add_contact s n p e)
  | upd_name (s : SQLiteAdapter.State) (cid : Nat) (v : String) :
      SQLiteReachable s → SQLiteReachable (SQLiteAdapter.update_contact_name s cid v)
  | upd_phone (s : SQLiteAdapter.State) (cid : Nat) (v : String) :
      SQLiteReachable s → SQLiteReachable (SQLiteAdapter.update_contact_phone s cid v)
  | upd_email (s : SQLiteAdapter.State) (cid : Nat) (v : String) :
      SQLiteReachable s → SQLiteReachable (SQLiteAdapter.update_contact_email s cid v)
  | del (s : SQLiteAdapter.State) (cid : Nat) :
      SQLiteReachable s → SQLiteReachable (SQLiteAdapter.delete_contact s cid)
  | bulk_upd (s : SQLiteAdapter.State) (ids : List Nat) (fld v : String) :
      SQLiteReachable s → SQLiteReachable (SQLiteAdapter.bulk_update s ids fld v).1
  | bulk_del (s : SQLiteAdapter.State) (ids : List Nat) :
      SQLiteReachable s → SQLiteReachable (SQLiteAdapter.bulk_delete s ids).1
  | cleanup (s : SQLiteAdapter.State) :
      SQLiteReachable s → SQLiteReachable (SQLiteAdapter.cleanup_db s).1
  | full_cleanup (s : SQLiteAdapter.State) :
      SQLiteReachable s → SQLiteReachable (SQLiteAdapter.full_cleanup_db s).1

/-- The table invariant: rows strictly ascending by id, ids never above
the sequence. -/
def SQLiteInv (s : SQLiteAdapter.State) : Prop :=
  List.Pairwise (fun a b => a.id < b.id) s.rows ∧ ∀ r ∈ s.rows, r.id ≤ s.seq

theorem sqliteInv_map (s : SQLiteAdapter.State) (g : SQLiteAdapter.Row → SQLiteAdapter.Row)
    (hg : ∀ r, (g r).id = r.id) (h : SQLiteInv s) :
    SQLiteInv ⟨s.rows.map g, s.seq⟩ := by
  obtain ⟨hp, hb⟩ := h
  constructor
  · rw [List.pairwise_map]
    exact hp.imp (fun hab => by rw [hg, hg]; exact hab)
  · intro r hr
    obtain ⟨q, hq, rfl⟩ := List.mem_map.mp hr
    rw [hg]
    exact hb q hq

theorem sqliteInv_filter (s : SQLiteAdapter.State) (p : SQLiteAdapter.Row → Bool)
    (h : SQLiteInv s) : SQLiteInv ⟨s.rows.filter p, s.seq⟩ := by
  obtain ⟨hp, hb⟩ := h
  exact ⟨hp.filter p, fun r hr => hb r (List.mem_filter.mp hr).1⟩

theorem sqlite_setField_id (r : SQLiteAdapter.Row) (fld v : String) :
    (SQLiteAdapter.setField r fld v).id = r.id := by
  unfold SQLiteAdapter.setField
  split
  · rfl
  split
  · rfl
  split
  · rfl
  · rfl

/-- Every reachable legacy SQLite state satisfies the table invariant. -/
theorem sqlite_reachable_inv (s : SQLiteAdapter.State) (h : SQLiteReachable s) :
    SQLiteInv s := by
  induction h with
  | create => exact ⟨List.Pairwise.nil, fun r hr => absurd hr (List.not_mem_nil r)⟩
  | add s n p e _ ih =>
    obtain ⟨hp, hb⟩ := ih
    unfold SQLiteAdapter.add_contact
    constructor
    · dsimp only
      rw [List.pairwise_append]
      refine ⟨hp, List.pairwise_singleton _ _, ?_⟩
      intro a ha b hb2
      rw [List.mem_singleton] at hb2
      subst hb2
      exact Nat.lt_succ_of_le (hb a ha)
    · dsimp only
      intro r hr
      rcases List.mem_append.mp hr with h1 | h1
      · exact Nat.le_succ_of_le (hb r h1)
      · rw [List.mem_singleton] at h1
        subst h1
        exact Nat.le_refl _
  | upd_name s cid v _ ih =>
    exact sqliteInv_map s _ (fun r => by by_cases hc : r.id = cid <;> simp [hc]) ih
  | upd_phone s cid v _ ih =>
    exact sqliteInv_map s _ (fun r => by by_cases hc : r.id = cid <;> simp [hc]) ih
  | upd_email s cid v _ ih =>
    exact sqliteInv_map s _ (fun r => by by_cases hc : r.id = cid <;> simp [hc]) ih
  | del s cid _ ih => exact sqliteInv_filter s _ ih
  | bulk_upd s ids fld v _ ih =>
    unfold SQLiteAdapter.bulk_update
    split
    · exact ih
    · exact sqliteInv_map s _
        (fun r => by
          by_cases hc : r.id ∈ ids <;> simp [hc, sqlite_setField_id]) ih
  | bulk_del s ids _ ih =>
    unfold SQLiteAdapter.bulk_delete
    split
    · exact ih
    · exact sqliteInv_filter s _ ih
  | cleanup s _ ih => exact sqliteInv_filter s _ ih
  | full_cleanup s _ ih => exact sqliteInv_filter s _ ih

/-- C6: view_contacts returns every stored record ordered by identifier
ascending — for the legacy SQLite adapter the full scan returns the
stored rows, which on every reachable state are strictly ascending by
id; the PostgreSQL, MySQL and MongoDB adapters return a permutation of
the stored records sorted by id (MongoDB after converting the sorted
documents to tuples). -/
theorem view_contacts_ordered :
    (∀ s, SQLiteReachable s → SQLiteAdapter.view_contacts s = s.rows
      ∧ List.Pairwise (fun a b => a.id < b.id) (SQLiteAdapter.view_contacts s))
    ∧ (∀ s : PostgreSQLAdapter.State,
        List.Perm (PostgreSQLAdapter.view_contacts s) s.rows
        ∧ List.Pairwise PostgreSQLAdapter.rowLe (PostgreSQLAdapter.view_contacts s))
    ∧ (∀ s : MySQLAdapter.State,
        List.Perm (MySQLAdapter.view_contacts s) s.rows
        ∧ List.Pairwise MySQLAdapter.rowLe (MySQLAdapter.view_contacts s))
    ∧ (∀ s : MongoDBAdapter.State,
        List.Perm (MongoDBAdapter.view_docs s) s.docs
        ∧ List.Pairwise MongoDBAdapter.docLe (MongoDBAdapter.view_docs s)
        ∧ MongoDBAdapter.view_contacts s =
            (MongoDBAdapter.view_docs s).map (MongoDBAdapter.doc_to_tuple s.docs.head?)) := by
  refine ⟨?_, ?_, ?_, ?_⟩
  · intro s h
    exact ⟨rfl, (sqlite_reachable_inv s h).1⟩
  · intro s
    exact ⟨List.perm_insertionSort _ _, List.sorted_insertionSort _ _⟩
  · intro s
    exact ⟨List.perm_insertionSort _ _, List.sorted_insertionSort _ _⟩
  · intro s
    exact ⟨List.perm_insertionSort _ _, List.sorted_insertionSort _ _, rfl⟩

/-- Witness for C6: a two-insert reachable SQLite state, with the view
evaluated concretely. -/
theorem view_contacts_ordered_witness :
    (SQLiteAdapter.view_contacts sqliteThree = sqliteThree.rows
      ∧ List.Pairwise (fun a b => a.id < b.id)
          (SQLiteAdapter.view_contacts sqliteThree))
    ∧ (SQLiteAdapter.view_contacts sqliteThree).map SQLiteAdapter.Row.id = [1, 2, 3] := by
  constructor
  · exact view_contacts_ordered.1 sqliteThree
      (SQLiteReachable.add _ "Cem" "3" "c@x.com"
        (SQLiteReachable.add _ "Bob" "2" "b@x.com"
          (SQLiteReachable.add _ "Ada" "1" "a@x.com" SQLiteReachable.create)))
  · decide

/-! ## Claim C8: bulk operation guards and counts -/

theorem filter_length_partition {α : Type} (p : α → Bool) (l : List α) :
    (l.filter (fun x => !(p x))).length + (l.filter p).length = l.length := by
  induction l with
  | nil => rfl
  | cons x xs ih =>
    cases hx : p x <;> simp [List.filter_cons, hx] <;> omega

/-- The state of the C8 counterexample: a live schema with an added
column age and one stored row with id 1. -/
def c8State : PostgreSQLAdapter.State :=
  ⟨[⟨1, Val.str "Ada", Val.null, Val.null, 0, 0, [("age", Val.null)]⟩], 2, ["age"]⟩

/-- C8 counterexample: the PostgreSQL bulk_update validates the field
against the live columns rather than the fixed allow-list, so updating
the added column age — outside {name, phone, email} — reports one
affected row and mutates the backend, where the claim requires 0 and no
mutation. -/
theorem bulk_update_allowlist_counterexample :
    (PostgreSQLAdapter.bulk_update 50 c8State [1] "age" (Val.str "30")).2 = 1
    ∧ (PostgreSQLAdapter.bulk_update 50 c8State [1] "age" (Val.str "30")).1 ≠ c8State := by
  constructor <;> decide

/-- C8 amended: with an empty id list every adapter's bulk_update and
bulk_delete return 0 and leave the state untouched; a field outside the
allow-list {name, phone, email} short-circuits to 0 on the SQLite,
MySQL and MongoDB adapters, while the PostgreSQL adapter instead
validates the field against the live columns minus id and the
timestamps (so it accepts any added column); bulk_delete removes
exactly the counted rows (remaining + count = previous total),
bulk_update deletes nothing and reports at most the table size; and the
count can be smaller than the id list, as on an empty table. -/
theorem bulk_operations_amended :
    (∀ (s : SQLiteAdapter.State) (fld v : String),
      SQLiteAdapter.bulk_update s [] fld v = (s, 0)
      ∧ SQLiteAdapter.bulk_delete s [] = (s, 0))
    ∧ (∀ (s : MySQLAdapter.State) (fld : String) (v : Val),
      MySQLAdapter.bulk_update s [] fld v = (s, 0)
      ∧ MySQLAdapter.bulk_delete s [] = (s, 0))
    ∧ (∀ (now : Nat) (s : PostgreSQLAdapter.State) (fld : String) (v : Val),
      PostgreSQLAdapter.bulk_update now s [] fld v = (s, 0)
      ∧ PostgreSQLAdapter.bulk_delete s [] = (s, 0))
    ∧ (∀ (now : Nat) (s : MongoDBAdapter.State) (fld : String) (v : Val),
      MongoDBAdapter.bulk_update now s [] fld v = (s, 0)
      ∧ MongoDBAdapter.bulk_delete s [] = (s, 0))
    ∧ (∀ (s : SQLiteAdapter.State) (ids : List Nat) (fld v : String),
      ((["name", "phone", "email"] : List String).contains fld) = false →
      SQLiteAdapter.bulk_update s ids fld v = (s, 0))
    ∧ (∀ (s : MySQLAdapter.State) (ids : List Nat) (fld : String) (v : Val),
      ((["name", "phone", "email"] : List String).contains fld) = false →
      MySQLAdapter.bulk_update s ids fld v = (s, 0))
    ∧ (∀ (now : Nat) (s : MongoDBAdapter.State) (ids : List Int) (fld : String) (v : Val),
      ((["name", "phone", "email"] : List String).contains fld) = false →
      MongoDBAdapter.bulk_update now s ids fld v = (s, 0))
    ∧ (∀ (now : Nat) (s : PostgreSQLAdapter.State) (ids : List Nat) (fld : String) (v : Val),
      (((["name", "phone", "email"] : List String) ++ s.extraCols).contains fld) = false →
      PostgreSQLAdapter.bulk_update now s ids fld v = (s, 0))
    ∧ (∀ (s : SQLiteAdapter.State) (ids : List Nat),
      (SQLiteAdapter.bulk_delete s ids).1.rows.length +
        (SQLiteAdapter.bulk_delete s ids).2 = s.rows.length)
    ∧ (∀ (now : Nat) (s : PostgreSQLAdapter.State) (ids : List Nat) (fld : String) (v : Val),
      (PostgreSQLAdapter.bulk_update now s ids fld v).1.rows.length = s.rows.length
      ∧ (PostgreSQLAdapter.bulk_update now s ids fld v).2 ≤ s.rows.length)
    ∧ SQLiteAdapter.bulk_delete ⟨[], 0⟩ [1, 2] = (⟨[], 0⟩, 0) := by
  refine ⟨?_, ?_, ?_, ?_, ?_, ?_, ?_, ?_, ?_, ?_, ?_⟩
  · intro s fld v
    constructor <;> rfl
  · intro s fld v
    constructor <;> rfl
  · intro now s fld v
    constructor <;> rfl
  · intro now s fld v
    constructor <;> rfl
  · intro s ids fld v h
    unfold SQLiteAdapter.bulk_update
    simp only [h]
    simp
  · intro s ids fld v h
    unfold MySQLAdapter.bulk_update
    simp only [h]
    simp
  · intro now s ids fld v h
    unfold MongoDBAdapter.bulk_update
    simp only [h]
    simp
  · intro now s ids fld v h
    unfold PostgreSQLAdapter.bulk_update
    split
    · rfl
    · simp only [h]
      simp
  · intro s ids
    unfold SQLiteAdapter.bulk_delete
    split
    · simp
    · exact filter_length_partition _ s.rows
  · intro now s ids fld v
    unfold PostgreSQLAdapter.bulk_update
    split
    · exact ⟨rfl, Nat.zero_le _⟩
    · simp only []
      split
      · exact ⟨rfl, Nat.zero_le _⟩
      · exact ⟨by simp, List.length_filter_le _ _⟩
  · rfl

/-- Witness for C8 at concrete inputs: the allow-list short circuit on
each of the three fixed-list adapters, and the PostgreSQL live-column
check on the base schema. -/
theorem bulk_operations_amended_witness :
    SQLiteAdapter.bulk_update sqliteThree [1] "age" "30" = (sqliteThree, 0)
    ∧ MySQLAdapter.bulk_update ⟨[], 1⟩ [1] "age" (Val.str "30") = (⟨[], 1⟩, 0)
    ∧ MongoDBAdapter.bulk_update 9 ⟨[], 0⟩ [1] "age" (Val.str "30") = (⟨[], 0⟩, 0)
    ∧ PostgreSQLAdapter.bulk_update 9 ⟨[], 1, []⟩ [1] "age" (Val.str "30") =
        (⟨[], 1, []⟩, 0) := by
  refine ⟨?_, ?_, ?_, ?_⟩
  · exact bulk_operations_amended.2.2.2.2.1 sqliteThree [1] "age" "30" (by decide)
  · exact bulk_operations_amended.2.2.2.2.2.1 ⟨[], 1⟩ [1] "age" (Val.str "30") (by decide)
  · exact bulk_operations_amended.2.2.2.2.2.2.1 9 ⟨[], 0⟩ [1] "age" (Val.str "30")
      (by decide)
  · exact bulk_operations_amended.2.2.2.2.2.2.2.1 9 ⟨[], 1, []⟩ [1] "age" (Val.str "30")
      (by decide)

/-! ## Claim C10: uniqueness checks never propagate adapter failures -/

/-- C10: whenever the candidate value is non-blank (so the adapter
listing is actually attempted) and the listing raises, both uniqueness
checks catch the exception and return a non-unique result (false) with
an error message, never success and never the exception. -/
theorem uniqueness_error_conservative :
    ∀ (columns : List String) (email phone : String) (excludeId : Option Int)
      (exc : String),
      ((py_strip email).isEmpty = false →
        ContactValidator.check_email_uniqueness columns (.error exc) email excludeId =
          (false, "Error checking email uniqueness: " ++ exc))
      ∧ ((py_strip phone).isEmpty = false →
        ContactValidator.check_phone_uniqueness columns (.error exc) phone excludeId =
          (false, "Error checking phone uniqueness: " ++ exc)) := by
  intro columns email phone excludeId exc
  constructor
  · intro h
    simp [ContactValidator.check_email_uniqueness, h]
  · intro h
    simp [ContactValidator.check_phone_uniqueness, h]

/-- Witness for C10 at a concrete email, phone and raised error. -/
theorem uniqueness_error_conservative_witness :
    ContactValidator.check_email_uniqueness
        SchemaManager.REQUIRED_COLUMNS (.error "db down") "ada@x.com" none =
      (false, "Error checking email uniqueness: db down")
    ∧ ContactValidator.check_phone_uniqueness
        SchemaManager.REQUIRED_COLUMNS (.error "db down") "555" (some 3) =
      (false, "Error checking phone uniqueness: db down") := by
  constructor
  · exact (uniqueness_error_conservative SchemaManager.REQUIRED_COLUMNS
      "ada@x.com" "555" none "db down").1 (by decide)
  · exact (uniqueness_error_conservative SchemaManager.REQUIRED_COLUMNS
      "ada@x.com" "555" (some 3) "db down").2 (by decide)
